import Mathlib

/-!
Shallow embedding of the barycentric-subdivision / filtration-assembly engine of
DelaunayInterfacesCpp (src/src/barycentric_subdivision.cpp), together with proofs
of the specification claims about it.

Doubles are modelled as real numbers, `int32_t` ids as natural numbers (no run can
approach the overflow bound through the claims considered here), `std::map` as an
association list with unique keys, and the `std::set` of filtration entries as a
duplicate-free list maintained by membership-checked insertion.  Exceptions are
modelled with `Except String`.
-/

namespace DelaunayInterfaces

/-- A 3D point: double-precision triple (Eigen `Point3D`), modelled over ℝ. -/
abbrev Point3D : Type := ℝ × ℝ × ℝ

/-- A simplex of the subdivided complex: a list of registered simplex ids. -/
abbrev Simplex : Type := List ℕ

/-- A filtration entry: (simplex, filtration value). -/
abbrev Entry : Type := Simplex × ℝ

/-- A partition / combination: an ordered list of blocks of point indices
(`std::vector<std::vector<int>>` in the source). -/
abbrev Partition : Type := List (List ℕ)

/-- Insertion of a natural number into a sorted list (ascending). -/
def insertSorted (a : ℕ) : List ℕ → List ℕ
  | [] => [a]
  | b :: t => if a ≤ b then a :: b :: t else b :: insertSorted a t

/-- Ascending sort of a list of naturals, modelling `std::sort` on an int vector. -/
def sortList (l : List ℕ) : List ℕ := l.foldr insertSorted []

/-- Modelled from the spec: `euclidean_distance` is declared in a repository header
that is not among the sources; §4.3 of the spec calls it the Euclidean distance
between two points. -/
noncomputable def euclidean_distance (p q : Point3D) : ℝ :=
  Real.sqrt ((p.1 - q.1) ^ 2 + (p.2.1 - q.2.1) ^ 2 + (p.2.2 - q.2.2) ^ 2)

/-- Modelled from the spec: `compute_barycenter` is declared in a repository header
that is not among the sources; §4.2 of the spec (BarycenterComputer) defines it as
the sum of the named points' coordinates divided by their count. -/
noncomputable def compute_barycenter (pts : List Point3D) (verts : List ℕ) : Point3D :=
  (((verts.map fun i => (pts.getD i (0, 0, 0)).1).sum) / (verts.length : ℝ),
   ((verts.map fun i => (pts.getD i (0, 0, 0)).2.1).sum) / (verts.length : ℝ),
   ((verts.map fun i => (pts.getD i (0, 0, 0)).2.2).sum) / (verts.length : ℝ))

/-- `BarycentricSubdivision::compute_filtration_value` (barycentric_subdivision.cpp,
lines 30–57): distance of the two block barycenters for 2 blocks, mean of the 3
pairwise distances for 3 blocks, mean of the 6 pairwise distances for 4 blocks,
and 0 otherwise. -/
noncomputable def compute_filtration_value (pts : List Point3D) (partitioning : Partition) : ℝ :=
  if partitioning.length = 2 then
    let bc1 := compute_barycenter pts (partitioning.getD 0 [])
    let bc2 := compute_barycenter pts (partitioning.getD 1 [])
    euclidean_distance bc1 bc2
  else if partitioning.length = 3 then
    let bc1 := compute_barycenter pts (partitioning.getD 0 [])
    let bc2 := compute_barycenter pts (partitioning.getD 1 [])
    let bc3 := compute_barycenter pts (partitioning.getD 2 [])
    let a := euclidean_distance bc1 bc2
    let b := euclidean_distance bc1 bc3
    let c := euclidean_distance bc2 bc3
    (a + b + c) / 3
  else if partitioning.length = 4 then
    let bc1 := compute_barycenter pts (partitioning.getD 0 [])
    let bc2 := compute_barycenter pts (partitioning.getD 1 [])
    let bc3 := compute_barycenter pts (partitioning.getD 2 [])
    let bc4 := compute_barycenter pts (partitioning.getD 3 [])
    let a := euclidean_distance bc1 bc2
    let b := euclidean_distance bc1 bc3
    let c := euclidean_distance bc1 bc4
    let d := euclidean_distance bc2 bc3
    let e := euclidean_distance bc2 bc4
    let f := euclidean_distance bc3 bc4
    (a + b + c + d + e + f) / 6
  else 0

/-- Lookup in the simplex registry (`std::map<std::vector<int>, std::pair<int32_t,double>>`),
modelled as an association list with unique keys. -/
def mapFind : List (List ℕ × ℕ × ℝ) → List ℕ → Option (ℕ × ℝ)
  | [], _ => none
  | (k, iv) :: t, key => if k = key then some iv else mapFind t key

/-- The mutable state of a `BarycentricSubdivision` object: the simplex registry,
the next id counter, the barycenter list and the filtration set. -/
structure BSState where
  simplex_map : List (List ℕ × ℕ × ℝ)
  next_simplex_id : ℕ
  barycenters : List Point3D
  filtration_set : List Entry

/-- The freshly constructed state (all containers empty, next id 0). -/
def initState : BSState := ⟨[], 0, [], []⟩

/-- `BarycentricSubdivision::get_or_create_simplex` (lines 59–78): key is the sorted
concatenation of the blocks; a hit returns the cached (id, value) with `newly_created
= false`; a miss assigns the next id, computes the filtration value, stores both and
returns them with `newly_created = true`. -/
noncomputable def get_or_create_simplex (pts : List Point3D) (s : BSState)
    (partitioning : Partition) : (ℕ × ℝ × Bool) × BSState :=
  let key := sortList partitioning.flatten
  match mapFind s.simplex_map key with
  | some (id, v) => ((id, v, false), s)
  | none =>
      let id := s.next_simplex_id
      let v := compute_filtration_value pts partitioning
      ((id, v, true),
       { s with
          simplex_map := s.simplex_map ++ [(key, id, v)],
          next_simplex_id := id + 1 })

/-- The registration loop shared by the four scaffold cases: call
`get_or_create_simplex` on each combination in order, collecting the
(id, value, newly_created) triples. -/
noncomputable def registerAll (pts : List Point3D) (s : BSState) :
    List Partition → List (ℕ × ℝ × Bool) × BSState
  | [] => ([], s)
  | c :: rest =>
      let r := get_or_create_simplex pts s c
      let r2 := registerAll pts r.2 rest
      (r.1 :: r2.1, r2.2)

/-- Insertion into the global filtration set (`filtration_set_.insert`): set
semantics on the full (simplex, value) pair. -/
noncomputable def fsInsert (e : Entry) (fs : List Entry) : List Entry :=
  if e ∈ fs then fs else fs ++ [e]

/-- A loop of `filtration_set_.insert` calls over a list of entries. -/
noncomputable def fsInsertAll (fs : List Entry) (ns : List Entry) : List Entry :=
  ns.foldl (fun acc e => fsInsert e acc) fs

/-- The body shared verbatim by the four `extend_scaffold_*` members (the C++
functions differ only in their combination list and edge/triangle index tables):
register the combinations, append the barycenters of the newly created ones (in
combination order), then insert the edge entries, the triangle entries and the
vertex entries, each edge/triangle weighted by the minimum of its endpoints'
cached values. -/
noncomputable def extend_scaffold (pts : List Point3D) (s : BSState)
    (mc_combinations : List Partition)
    (edge_indices : List (ℕ × ℕ)) (triangle_indices : List (ℕ × ℕ × ℕ)) : BSState :=
  let r := registerAll pts s mc_combinations
  let vertices := r.1
  let s1 := r.2
  let vid := fun i => (vertices.getD i (0, 0, false)).1
  let vval := fun i => (vertices.getD i (0, 0, false)).2.1
  let new_barycenters := mc_combinations.map fun c => compute_barycenter pts c.flatten
  let createdBcs := (vertices.zip new_barycenters).filterMap
    fun ib => if ib.1.2.2 then some ib.2 else none
  let s2 := { s1 with barycenters := s1.barycenters ++ createdBcs }
  let edgeEntries := edge_indices.map fun e =>
    (sortList [vid e.1, vid e.2], min (vval e.1) (vval e.2))
  let triEntries := triangle_indices.map fun t =>
    (sortList [vid t.1, vid t.2.1, vid t.2.2],
     min (vval t.1) (min (vval t.2.1) (vval t.2.2)))
  let vertEntries := vertices.map fun iv => ([iv.1], iv.2.1)
  { s2 with
      filtration_set :=
        fsInsertAll (fsInsertAll (fsInsertAll s2.filtration_set edgeEntries) triEntries)
          vertEntries }

/-- `BarycentricSubdivision::extend_scaffold_2_2` (lines 80–156). -/
noncomputable def extend_scaffold_2_2 (pts : List Point3D) (s : BSState)
    (part1 part2 : List ℕ) : BSState :=
  let u := part1.getD 0 0
  let v := part1.getD 1 0
  let x := part2.getD 0 0
  let y := part2.getD 1 0
  extend_scaffold pts s
    [[[u], [x]], [[v], [x]], [[v], [y]], [[u], [y]],
     [[u, v], [x]], [[v], [x, y]], [[u, v], [y]], [[u], [x, y]],
     [[u, v], [x, y]]]
    [(8, 0), (8, 1), (8, 2), (8, 3),
     (8, 4), (8, 5), (8, 6), (8, 7),
     (0, 4), (1, 4), (1, 5), (2, 5),
     (2, 6), (3, 6), (3, 7), (0, 7)]
    [(8, 0, 4), (8, 4, 1), (8, 1, 5), (8, 5, 2),
     (8, 2, 6), (8, 6, 3), (8, 3, 7), (8, 7, 0)]

/-- `BarycentricSubdivision::extend_scaffold_3_1` (lines 158–226). -/
noncomputable def extend_scaffold_3_1 (pts : List Point3D) (s : BSState)
    (part1 part2 : List ℕ) : BSState :=
  let u := part1.getD 0 0
  let v := part1.getD 1 0
  let w := part1.getD 2 0
  let x := part2.getD 0 0
  extend_scaffold pts s
    [[[u], [x]], [[v], [x]], [[w], [x]],
     [[u, v], [x]], [[v, w], [x]], [[u, w], [x]],
     [[u, v, w], [x]]]
    [(6, 0), (6, 1), (6, 2), (6, 3), (6, 4), (6, 5),
     (0, 3), (1, 3), (1, 4), (2, 4), (2, 5), (0, 5)]
    [(6, 0, 3), (6, 3, 1), (6, 1, 4),
     (6, 4, 2), (6, 2, 5), (6, 5, 0)]

/-- `BarycentricSubdivision::extend_scaffold_2_1_1` (lines 228–300). -/
noncomputable def extend_scaffold_2_1_1 (pts : List Point3D) (s : BSState)
    (part1 part2 part3 : List ℕ) : BSState :=
  let a := part1.getD 0 0
  let b := part1.getD 1 0
  let u := part2.getD 0 0
  let x := part3.getD 0 0
  extend_scaffold pts s
    [[[a], [u]], [[a], [x]], [[b], [x]], [[b], [u]],
     [[u], [x]],
     [[a], [u], [x]], [[a, b], [x]], [[b], [u], [x]], [[a, b], [u]],
     [[a, b], [u], [x]]]
    [(9, 0), (9, 1), (9, 2), (9, 3), (9, 4),
     (9, 5), (9, 6), (9, 7), (9, 8),
     (0, 5), (1, 5), (2, 6), (3, 8), (4, 5), (4, 7)]
    [(9, 0, 5), (9, 5, 4), (9, 4, 7), (9, 7, 3),
     (9, 3, 8), (9, 8, 0), (9, 2, 7), (9, 5, 1),
     (9, 1, 6), (9, 6, 2)]

/-- `BarycentricSubdivision::extend_scaffold_1_1_1_1` (lines 302–376). -/
noncomputable def extend_scaffold_1_1_1_1 (pts : List Point3D) (s : BSState)
    (part1 part2 part3 part4 : List ℕ) : BSState :=
  let a := part1.getD 0 0
  let i := part2.getD 0 0
  let u := part3.getD 0 0
  let x := part4.getD 0 0
  extend_scaffold pts s
    [[[a], [i]], [[a], [u]], [[a], [x]],
     [[i], [u]], [[i], [x]], [[u], [x]],
     [[a], [i], [u]], [[a], [i], [x]], [[i], [u], [x]], [[a], [u], [x]],
     [[a], [i], [u], [x]]]
    [(10, 0), (10, 1), (10, 2), (10, 3), (10, 4), (10, 5),
     (10, 6), (10, 7), (10, 8), (10, 9),
     (0, 6), (1, 6), (3, 8), (4, 7), (5, 9), (0, 7), (1, 9), (3, 6), (4, 8), (5, 8)]
    [(10, 3, 8), (10, 8, 4), (10, 4, 7), (10, 7, 0),
     (10, 0, 6), (10, 6, 3), (10, 9, 1), (10, 5, 9),
     (10, 8, 5), (10, 1, 6), (10, 9, 2), (10, 2, 7)]

/-- The minimum point index of a block (used for the canonical block order). -/
def blockMin (b : List ℕ) : ℕ := b.foldr min (b.getD 0 0)

/-- Insertion of a block into a canonically ordered block list: largest block
first, ties broken by ascending minimum point index. -/
def insertBlock (b : List ℕ) : List (List ℕ) → List (List ℕ)
  | [] => [b]
  | c :: t =>
      if c.length < b.length ∨ (b.length = c.length ∧ blockMin b ≤ blockMin c) then
        b :: c :: t
      else c :: insertBlock b t

/-- Canonical ordering of the blocks of a chromatic partition. -/
def sortBlocks (l : List (List ℕ)) : List (List ℕ) := l.foldr insertBlock []

/-- Modelled from the spec: `get_chromatic_partitioning` lives in
chromatic_partitioning.cpp, which is not among the sources.  Spec §4.1: group the
tetrahedron's vertex indices into blocks of identical color, ordered canonically
(largest block first, ties broken by ascending minimum point index); fail with an
`InvalidInput` condition when fewer than 2 distinct colors are present. -/
def get_chromatic_partitioning (tet : List ℕ) (colors : List ℤ) :
    Except String (List (List ℕ)) :=
  let tetColors := (tet.map fun ix => colors.getD ix 0).dedup
  if tetColors.length < 2 then
    Except.error "InvalidInput: non-heterogeneous tetrahedron"
  else
    Except.ok (sortBlocks (tetColors.map fun c => tet.filter fun ix => colors.getD ix 0 = c))

/-- The shape dispatch of `BarycentricSubdivision::process_tetrahedron`
(lines 378–396), acting on the chromatic partition it computed: a 2-block
partition goes to the 2-2 or 3-1 scaffold (the 1-3 shape swaps the blocks) or
raises `std::runtime_error`; 3 blocks go to the 2-1-1 scaffold, 4 blocks to the
1-1-1-1 scaffold; any other block count falls through all branches and leaves the
state unchanged. -/
noncomputable def process_partition (pts : List Point3D) (s : BSState)
    (parts : List (List ℕ)) : Except String BSState :=
  if parts.length = 2 then
    if (parts.getD 0 []).length = 2 ∧ (parts.getD 1 []).length = 2 then
      Except.ok (extend_scaffold_2_2 pts s (parts.getD 0 []) (parts.getD 1 []))
    else if (parts.getD 0 []).length = 3 ∧ (parts.getD 1 []).length = 1 then
      Except.ok (extend_scaffold_3_1 pts s (parts.getD 0 []) (parts.getD 1 []))
    else if (parts.getD 0 []).length = 1 ∧ (parts.getD 1 []).length = 3 then
      Except.ok (extend_scaffold_3_1 pts s (parts.getD 1 []) (parts.getD 0 []))
    else
      Except.error "Invalid 2-part partitioning"
  else if parts.length = 3 then
    Except.ok (extend_scaffold_2_1_1 pts s (parts.getD 0 []) (parts.getD 1 []) (parts.getD 2 []))
  else if parts.length = 4 then
    Except.ok (extend_scaffold_1_1_1_1 pts s (parts.getD 0 []) (parts.getD 1 [])
      (parts.getD 2 []) (parts.getD 3 []))
  else
    Except.ok s

/-- `BarycentricSubdivision::process_tetrahedron` (lines 378–396): compute the
chromatic partitioning, then dispatch on its shape. -/
noncomputable def process_tetrahedron (pts : List Point3D) (colors : List ℤ)
    (s : BSState) (tet : List ℕ) : Except String BSState :=
  match get_chromatic_partitioning tet colors with
  | Except.error e => Except.error e
  | Except.ok parts => process_partition pts s parts

/-- A sequence of `process_tetrahedron` calls (the loop in
`get_barycentric_subdivision_and_filtration`); an exception aborts the run. -/
noncomputable def runTets (pts : List Point3D) (colors : List ℤ) (s : BSState) :
    List (List ℕ) → Except String BSState
  | [] => Except.ok s
  | t :: rest =>
      match process_tetrahedron pts colors s t with
      | Except.error e => Except.error e
      | Except.ok s1 => runTets pts colors s1 rest

/-- The order produced by the `std::sort` comparator in
`BarycentricSubdivision::get_filtration` (lines 398–412): ascending simplex size
first, then ascending filtration value. -/
def entryLe (a b : Entry) : Prop :=
  a.1.length < b.1.length ∨ (a.1.length = b.1.length ∧ a.2 ≤ b.2)

noncomputable instance : DecidableRel entryLe := fun a b => by
  unfold entryLe; exact inferInstance

/-- Insertion of an entry into a list sorted by `entryLe`. -/
noncomputable def insertEntry (a : Entry) : List Entry → List Entry
  | [] => [a]
  | b :: t => if entryLe a b then a :: b :: t else b :: insertEntry a t

/-- Sorting of the filtration entries by `entryLe` (the `std::sort` call). -/
noncomputable def sortEntries (l : List Entry) : List Entry := l.foldr insertEntry []

/-- `BarycentricSubdivision::get_filtration` (lines 398–412): the filtration set,
sorted by simplex size then by filtration value. -/
noncomputable def get_filtration (s : BSState) : List Entry :=
  sortEntries s.filtration_set

/-- `get_barycentric_subdivision_and_filtration` (lines 414–439).  The geometric
kernel (`InterfaceGenerator::get_multicolored_tetrahedra`, a CGAL triangulation)
is outside the engine; it is passed here as the function argument `gen`. -/
noncomputable def get_barycentric_subdivision_and_filtration
    (gen : List Point3D → List ℤ → List ℝ → Bool → Bool → List (List ℕ))
    (points : List Point3D) (color_labels : List ℤ) (radii : List ℝ)
    (weighted alpha : Bool) :
    Except String (List Point3D × List Entry) :=
  if points.length ≠ color_labels.length then
    Except.error "Each point must have a corresponding color_label"
  else if weighted ∧ radii.length ≠ points.length then
    Except.error "Each point must have an assigned radius for weighted complexes"
  else
    match runTets points color_labels initState (gen points color_labels radii weighted alpha) with
    | Except.error e => Except.error e
    | Except.ok s => Except.ok (s.barycenters, get_filtration s)

/-- Numbers of size-1, size-2 and size-3 entries of the returned filtration. -/
noncomputable def sizeCounts (s : BSState) : ℕ × ℕ × ℕ :=
  (((get_filtration s).filter fun e => e.1.length = 1).length,
   ((get_filtration s).filter fun e => e.1.length = 2).length,
   ((get_filtration s).filter fun e => e.1.length = 3).length)

/-- The registry/barycenter-list correspondence of spec §3: the barycenter list
has one point per registered id, id-indexed, holding the mean of the points of
that id's identity key; ids below the counter are exactly the registered ones,
one key each. -/
def RegistryInv (pts : List Point3D) (s : BSState) : Prop :=
  s.barycenters.length = s.next_simplex_id ∧
  (∀ k id v, mapFind s.simplex_map k = some (id, v) →
    id < s.next_simplex_id ∧ s.barycenters.getD id (0, 0, 0) = compute_barycenter pts k) ∧
  (∀ id, id < s.next_simplex_id → ∃ k v, mapFind s.simplex_map k = some (id, v)) ∧
  (∀ k k' id v v', mapFind s.simplex_map k = some (id, v) →
    mapFind s.simplex_map k' = some (id, v') → k = k')

/-- Sum of the pairwise Euclidean distances of a list of points (each unordered
pair counted once). -/
noncomputable def pairwiseDistSum : List Point3D → ℝ
  | [] => 0
  | a :: t => (t.map fun b => euclidean_distance a b).sum + pairwiseDistSum t

/-- The divisor that `compute_filtration_value` applies to the pairwise distance
sum, as a function of the block count (0 for block counts whose value is 0;
division by 0 is 0 in ℝ). -/
def cfvDiv (n : ℕ) : ℝ :=
  if n = 2 then 1 else if n = 3 then 3 else if n = 4 then 6 else 0

/-- The (id, value, newly_created) triples produced when every combination in the
list is newly registered, ids counted from `n`. -/
noncomputable def enumInfos (pts : List Point3D) (n : ℕ) : List Partition → List (ℕ × ℝ × Bool)
  | [] => []
  | c :: rest => (n, compute_filtration_value pts c, true) :: enumInfos pts (n + 1) rest

/-! ### Lemmas about the sorting helpers -/

theorem insertSorted_perm (a : ℕ) (l : List ℕ) : (insertSorted a l).Perm (a :: l) := by
  induction l with
  | nil => simp [insertSorted]
  | cons b t ih =>
      by_cases h : a ≤ b
      · simp [insertSorted, h]
      · simp only [insertSorted, if_neg h]
        exact ((ih).cons b).trans (List.Perm.swap a b t)

theorem sortList_perm (l : List ℕ) : (sortList l).Perm l := by
  induction l with
  | nil => simp [sortList]
  | cons a t ih =>
      simp only [sortList, List.foldr_cons]
      exact (insertSorted_perm a _).trans (ih.cons a)

theorem sortList_length (l : List ℕ) : (sortList l).length = l.length :=
  (sortList_perm l).length_eq

theorem insertSorted_sorted (a : ℕ) (l : List ℕ) (h : l.Sorted (· ≤ ·)) :
    (insertSorted a l).Sorted (· ≤ ·) := by
  induction l with
  | nil => simp [insertSorted]
  | cons b t ih =>
      by_cases hab : a ≤ b
      · simp only [insertSorted, if_pos hab]
        refine List.sorted_cons.2 ⟨fun c hc => ?_, h⟩
        rcases List.mem_cons.1 hc with rfl | hc
        · exact hab
        · exact le_trans hab ((List.sorted_cons.1 h).1 c hc)
      · simp only [insertSorted, if_neg hab]
        rcases List.sorted_cons.1 h with ⟨hb, ht⟩
        refine List.sorted_cons.2 ⟨fun c hc => ?_, ih ht⟩
        rcases List.mem_cons.1 ((insertSorted_perm a t).mem_iff.1 hc) with rfl | hc
        · exact le_of_not_le hab
        · exact hb c hc

theorem sortList_sorted (l : List ℕ) : (sortList l).Sorted (· ≤ ·) := by
  induction l with
  | nil => simp [sortList]
  | cons a t ih => exact insertSorted_sorted a (sortList t) ih

theorem sortList_eq_of_perm {l l' : List ℕ} (h : l.Perm l') : sortList l = sortList l' :=
  List.eq_of_perm_of_sorted ((sortList_perm l).trans (h.trans (sortList_perm l').symm))
    (sortList_sorted l) (sortList_sorted l')

/-! ### Lemmas about the filtration set -/

theorem mem_fsInsert (a e : Entry) (fs : List Entry) :
    a ∈ fsInsert e fs ↔ a ∈ fs ∨ a = e := by
  unfold fsInsert
  by_cases h : e ∈ fs
  · simp only [if_pos h]
    constructor
    · exact Or.inl
    · rintro (ha | rfl)
      · exact ha
      · exact h
  · simp [if_neg h]

theorem fsInsert_nodup (e : Entry) (fs : List Entry) (h : fs.Nodup) :
    (fsInsert e fs).Nodup := by
  unfold fsInsert
  by_cases he : e ∈ fs
  · simpa [if_pos he]
  · simpa [if_neg he, List.nodup_append, h]

theorem mem_fsInsertAll (a : Entry) (fs ns : List Entry) :
    a ∈ fsInsertAll fs ns ↔ a ∈ fs ∨ a ∈ ns := by
  induction ns generalizing fs with
  | nil => simp [fsInsertAll]
  | cons e t ih =>
      simp only [fsInsertAll, List.foldl_cons] at *
      rw [ih (fsInsert e fs), mem_fsInsert]
      simp only [List.mem_cons]
      tauto

theorem fsInsertAll_nodup (fs ns : List Entry) (h : fs.Nodup) :
    (fsInsertAll fs ns).Nodup := by
  induction ns generalizing fs with
  | nil => simpa [fsInsertAll]
  | cons e t ih =>
      simp only [fsInsertAll, List.foldl_cons] at *
      exact ih (fsInsert e fs) (fsInsert_nodup e fs h)

theorem fsInsert_of_not_mem {e : Entry} {fs : List Entry} (h : e ∉ fs) :
    fsInsert e fs = fs ++ [e] := by
  unfold fsInsert; rw [if_neg h]

theorem fsInsertAll_eq_append (fs ns : List Entry)
    (h : ((fs ++ ns).map Prod.fst).Nodup) : fsInsertAll fs ns = fs ++ ns := by
  induction ns generalizing fs with
  | nil => simp [fsInsertAll]
  | cons e t ih =>
      have he : e ∉ fs := by
        intro hmem
        rw [List.map_append, List.nodup_append] at h
        exact h.2.2 (List.mem_map_of_mem Prod.fst hmem) (by simp)
      simp only [fsInsertAll, List.foldl_cons]
      have := ih (fs ++ [e]) (by simpa using h)
      simp only [fsInsertAll] at this
      rw [fsInsert_of_not_mem he, this, List.append_assoc]
      rfl

/-! ### Lemmas about the output sort -/

theorem entryLe_total (a b : Entry) : entryLe a b ∨ entryLe b a := by
  unfold entryLe
  rcases lt_trichotomy a.1.length b.1.length with h | h | h
  · exact Or.inl (Or.inl h)
  · rcases le_total a.2 b.2 with hv | hv
    · exact Or.inl (Or.inr ⟨h, hv⟩)
    · exact Or.inr (Or.inr ⟨h.symm, hv⟩)
  · exact Or.inr (Or.inl h)

theorem entryLe_trans {a b c : Entry} (h1 : entryLe a b) (h2 : entryLe b c) :
    entryLe a c := by
  unfold entryLe at *
  rcases h1 with h1 | ⟨h1, h1v⟩
  · rcases h2 with h2 | ⟨h2, _⟩
    · exact Or.inl (h1.trans h2)
    · exact Or.inl (h2 ▸ h1)
  · rcases h2 with h2 | ⟨h2, h2v⟩
    · exact Or.inl (h1 ▸ h2)
    · exact Or.inr ⟨h1.trans h2, h1v.trans h2v⟩

theorem insertEntry_perm (a : Entry) (l : List Entry) :
    (insertEntry a l).Perm (a :: l) := by
  induction l with
  | nil => simp [insertEntry]
  | cons b t ih =>
      by_cases h : entryLe a b
      · simp [insertEntry, h]
      · simp only [insertEntry, if_neg h]
        exact ((ih).cons b).trans (List.Perm.swap a b t)

theorem sortEntries_perm (l : List Entry) : (sortEntries l).Perm l := by
  induction l with
  | nil => simp [sortEntries]
  | cons a t ih =>
      simp only [sortEntries, List.foldr_cons]
      exact (insertEntry_perm a _).trans (ih.cons a)

theorem insertEntry_pairwise (a : Entry) (l : List Entry)
    (h : l.Pairwise entryLe) : (insertEntry a l).Pairwise entryLe := by
  induction l with
  | nil => simp [insertEntry]
  | cons b t ih =>
      by_cases hab : entryLe a b
      · simp only [insertEntry, if_pos hab]
        refine List.pairwise_cons.2 ⟨fun c hc => ?_, h⟩
        rcases List.mem_cons.1 hc with rfl | hc
        · exact hab
        · exact entryLe_trans hab ((List.pairwise_cons.1 h).1 c hc)
      · simp only [insertEntry, if_neg hab]
        rcases List.pairwise_cons.1 h with ⟨hb, ht⟩
        refine List.pairwise_cons.2 ⟨fun c hc => ?_, ih ht⟩
        rcases List.mem_cons.1 ((insertEntry_perm a t).mem_iff.1 hc) with hc1 | hc
        · exact hc1 ▸ (entryLe_total a b).resolve_left hab
        · exact hb c hc

theorem sortEntries_pairwise (l : List Entry) : (sortEntries l).Pairwise entryLe := by
  induction l with
  | nil => simp [sortEntries]
  | cons a t ih => exact insertEntry_pairwise a (sortEntries t) ih

/-! ### Lemmas about the registry map -/

theorem mapFind_append (m m' : List (List ℕ × ℕ × ℝ)) (k : List ℕ) :
    mapFind (m ++ m') k = ((mapFind m k).rec (mapFind m' k) fun iv => some iv) := by
  induction m with
  | nil => simp [mapFind]
  | cons e t ih =>
      by_cases h : e.1 = k
      · simp [mapFind, h]
      · simp [mapFind, h, ih]

theorem mapFind_append_of_some {m : List (List ℕ × ℕ × ℝ)} {k : List ℕ}
    {iv : ℕ × ℝ} (m' : List (List ℕ × ℕ × ℝ)) (h : mapFind m k = some iv) :
    mapFind (m ++ m') k = some iv := by
  rw [mapFind_append, h]

theorem mapFind_append_of_none {m : List (List ℕ × ℕ × ℝ)} {k : List ℕ}
    (m' : List (List ℕ × ℕ × ℝ)) (h : mapFind m k = none) :
    mapFind (m ++ m') k = mapFind m' k := by
  rw [mapFind_append, h]

/-! ### Permutation invariance of the geometric helpers -/

theorem compute_barycenter_perm (pts : List Point3D) {v v' : List ℕ}
    (h : v.Perm v') : compute_barycenter pts v = compute_barycenter pts v' := by
  unfold compute_barycenter
  rw [h.length_eq,
    (h.map fun i => (pts.getD i (0, 0, 0)).1).sum_eq,
    (h.map fun i => (pts.getD i (0, 0, 0)).2.1).sum_eq,
    (h.map fun i => (pts.getD i (0, 0, 0)).2.2).sum_eq]

theorem euclidean_distance_comm (p q : Point3D) :
    euclidean_distance p q = euclidean_distance q p := by
  unfold euclidean_distance
  congr 1
  ring

theorem pairwiseDistSum_perm {l l' : List Point3D} (h : l.Perm l') :
    pairwiseDistSum l = pairwiseDistSum l' := by
  induction h with
  | nil => rfl
  | cons a h ih =>
      simp only [pairwiseDistSum, ih, (h.map fun b => euclidean_distance a b).sum_eq]
  | swap a b t =>
      simp only [pairwiseDistSum, List.map_cons, List.sum_cons]
      rw [euclidean_distance_comm b a]
      ring
  | trans h1 h2 ih1 ih2 => rw [ih1, ih2]

theorem compute_filtration_value_eq_pds (pts : List Point3D) (p : Partition) :
    compute_filtration_value pts p =
      pairwiseDistSum (p.map (compute_barycenter pts)) / cfvDiv p.length := by
  rcases p with _ | ⟨b0, p⟩
  · simp [compute_filtration_value, pairwiseDistSum, cfvDiv]
  rcases p with _ | ⟨b1, p⟩
  · simp [compute_filtration_value, pairwiseDistSum, cfvDiv]
  rcases p with _ | ⟨b2, p⟩
  · simp [compute_filtration_value, pairwiseDistSum, cfvDiv, List.getD]
  rcases p with _ | ⟨b3, p⟩
  · simp only [compute_filtration_value, pairwiseDistSum, cfvDiv, List.map_cons,
      List.map_nil, List.sum_cons, List.sum_nil, List.length_cons, List.length_nil,
      List.getD]
    norm_num
  rcases p with _ | ⟨b4, p⟩
  · simp only [compute_filtration_value, pairwiseDistSum, cfvDiv, List.map_cons,
      List.map_nil, List.sum_cons, List.sum_nil, List.length_cons, List.length_nil,
      List.getD]
    norm_num
    ring
  · have h2 : p.length + 5 ≠ 2 := by omega
    have h3 : p.length + 5 ≠ 3 := by omega
    have h4 : p.length + 5 ≠ 4 := by omega
    simp only [compute_filtration_value, cfvDiv, List.length_cons]
    norm_num [h2, h3, h4]

/-! ### Case analysis of `get_or_create_simplex` and state evolution lemmas -/

theorem get_or_create_spec (pts : List Point3D) (s : BSState) (c : Partition) :
    (∃ id v, mapFind s.simplex_map (sortList c.flatten) = some (id, v) ∧
      get_or_create_simplex pts s c = ((id, v, false), s)) ∨
    (mapFind s.simplex_map (sortList c.flatten) = none ∧
      get_or_create_simplex pts s c =
        ((s.next_simplex_id, compute_filtration_value pts c, true),
         { s with
            simplex_map := s.simplex_map ++
              [(sortList c.flatten, s.next_simplex_id, compute_filtration_value pts c)],
            next_simplex_id := s.next_simplex_id + 1 })) := by
  cases h : mapFind s.simplex_map (sortList c.flatten) with
  | some iv =>
      left
      exact ⟨iv.1, iv.2, by simp [h], by simp [get_or_create_simplex, h]⟩
  | none =>
      right
      exact ⟨rfl, by simp [get_or_create_simplex, h]⟩

theorem get_or_create_barycenters (pts : List Point3D) (s : BSState) (c : Partition) :
    (get_or_create_simplex pts s c).2.barycenters = s.barycenters := by
  rcases get_or_create_spec pts s c with ⟨id, v, _, h⟩ | ⟨_, h⟩ <;> rw [h]

theorem get_or_create_filtration (pts : List Point3D) (s : BSState) (c : Partition) :
    (get_or_create_simplex pts s c).2.filtration_set = s.filtration_set := by
  rcases get_or_create_spec pts s c with ⟨id, v, _, h⟩ | ⟨_, h⟩ <;> rw [h]

theorem get_or_create_map_mono (pts : List Point3D) (s : BSState) (c : Partition)
    {k : List ℕ} {iv : ℕ × ℝ} (h : mapFind s.simplex_map k = some iv) :
    mapFind (get_or_create_simplex pts s c).2.simplex_map k = some iv := by
  rcases get_or_create_spec pts s c with ⟨id, v, _, hr⟩ | ⟨_, hr⟩ <;> rw [hr]
  · exact h
  · exact mapFind_append_of_some _ h

theorem registerAll_barycenters (pts : List Point3D) (s : BSState)
    (cs : List Partition) : (registerAll pts s cs).2.barycenters = s.barycenters := by
  induction cs generalizing s with
  | nil => rfl
  | cons c rest ih =>
      simp only [registerAll]
      rw [ih, get_or_create_barycenters]

theorem registerAll_filtration (pts : List Point3D) (s : BSState)
    (cs : List Partition) : (registerAll pts s cs).2.filtration_set = s.filtration_set := by
  induction cs generalizing s with
  | nil => rfl
  | cons c rest ih =>
      simp only [registerAll]
      rw [ih, get_or_create_filtration]

theorem registerAll_map_mono (pts : List Point3D) (s : BSState) (cs : List Partition)
    {k : List ℕ} {iv : ℕ × ℝ} (h : mapFind s.simplex_map k = some iv) :
    mapFind (registerAll pts s cs).2.simplex_map k = some iv := by
  induction cs generalizing s with
  | nil => exact h
  | cons c rest ih =>
      simp only [registerAll]
      exact ih _ (get_or_create_map_mono pts s c h)

theorem extend_scaffold_map (pts : List Point3D) (s : BSState) (cs : List Partition)
    (es : List (ℕ × ℕ)) (ts : List (ℕ × ℕ × ℕ)) :
    (extend_scaffold pts s cs es ts).simplex_map = (registerAll pts s cs).2.simplex_map := rfl

theorem extend_scaffold_next (pts : List Point3D) (s : BSState) (cs : List Partition)
    (es : List (ℕ × ℕ)) (ts : List (ℕ × ℕ × ℕ)) :
    (extend_scaffold pts s cs es ts).next_simplex_id =
      (registerAll pts s cs).2.next_simplex_id := rfl

theorem extend_scaffold_filtration_nodup (pts : List Point3D) (s : BSState)
    (cs : List Partition) (es : List (ℕ × ℕ)) (ts : List (ℕ × ℕ × ℕ))
    (h : s.filtration_set.Nodup) : (extend_scaffold pts s cs es ts).filtration_set.Nodup := by
  unfold extend_scaffold
  simp only
  rw [registerAll_filtration]
  exact fsInsertAll_nodup _ _ (fsInsertAll_nodup _ _ (fsInsertAll_nodup _ _ h))

theorem process_partition_shape (pts : List Point3D) (s : BSState)
    (parts : List (List ℕ)) {s' : BSState}
    (hrun : process_partition pts s parts = Except.ok s') :
    s' = s ∨ ∃ cs es ts, s' = extend_scaffold pts s cs es ts := by
  unfold process_partition at hrun
  split_ifs at hrun
  · cases Except.ok.inj hrun
    exact Or.inr ⟨_, _, _, rfl⟩
  · cases Except.ok.inj hrun
    exact Or.inr ⟨_, _, _, rfl⟩
  · cases Except.ok.inj hrun
    exact Or.inr ⟨_, _, _, rfl⟩
  · cases Except.ok.inj hrun
    exact Or.inr ⟨_, _, _, rfl⟩
  · cases Except.ok.inj hrun
    exact Or.inr ⟨_, _, _, rfl⟩
  · cases Except.ok.inj hrun
    exact Or.inl rfl

theorem process_partition_filtration_nodup (pts : List Point3D) (s : BSState)
    (parts : List (List ℕ)) {s' : BSState}
    (hrun : process_partition pts s parts = Except.ok s')
    (h : s.filtration_set.Nodup) : s'.filtration_set.Nodup := by
  rcases process_partition_shape pts s parts hrun with rfl | ⟨cs, es, ts, rfl⟩
  · exact h
  · exact extend_scaffold_filtration_nodup pts s cs es ts h

theorem process_tetrahedron_filtration_nodup (pts : List Point3D) (colors : List ℤ)
    (s : BSState) (tet : List ℕ) {s' : BSState}
    (hrun : process_tetrahedron pts colors s tet = Except.ok s')
    (h : s.filtration_set.Nodup) : s'.filtration_set.Nodup := by
  unfold process_tetrahedron at hrun
  cases hp : get_chromatic_partitioning tet colors with
  | error e => rw [hp] at hrun; simp at hrun
  | ok parts =>
      rw [hp] at hrun
      exact process_partition_filtration_nodup pts s parts hrun h

theorem runTets_filtration_nodup (pts : List Point3D) (colors : List ℤ)
    (tets : List (List ℕ)) : ∀ (s : BSState) {s' : BSState},
    runTets pts colors s tets = Except.ok s' →
    s.filtration_set.Nodup → s'.filtration_set.Nodup := by
  induction tets with
  | nil =>
      intro s s' hrun h
      simp only [runTets, Except.ok.injEq] at hrun
      exact hrun ▸ h
  | cons t rest ih =>
      intro s s' hrun h
      simp only [runTets] at hrun
      cases hp : process_tetrahedron pts colors s t with
      | error e => rw [hp] at hrun; simp at hrun
      | ok s1 =>
          rw [hp] at hrun
          exact ih s1 hrun (process_tetrahedron_filtration_nodup pts colors s t hp h)

theorem process_partition_map_mono (pts : List Point3D) (s : BSState)
    (parts : List (List ℕ)) {s' : BSState}
    (hrun : process_partition pts s parts = Except.ok s')
    {k : List ℕ} {iv : ℕ × ℝ} (h : mapFind s.simplex_map k = some iv) :
    mapFind s'.simplex_map k = some iv := by
  rcases process_partition_shape pts s parts hrun with rfl | ⟨cs, es, ts, rfl⟩
  · exact h
  · rw [extend_scaffold_map]
    exact registerAll_map_mono pts s cs h

theorem process_tetrahedron_map_mono (pts : List Point3D) (colors : List ℤ)
    (s : BSState) (tet : List ℕ) {s' : BSState}
    (hrun : process_tetrahedron pts colors s tet = Except.ok s')
    {k : List ℕ} {iv : ℕ × ℝ} (h : mapFind s.simplex_map k = some iv) :
    mapFind s'.simplex_map k = some iv := by
  unfold process_tetrahedron at hrun
  cases hp : get_chromatic_partitioning tet colors with
  | error e => rw [hp] at hrun; simp at hrun
  | ok parts =>
      rw [hp] at hrun
      exact process_partition_map_mono pts s parts hrun h

theorem runTets_map_mono (pts : List Point3D) (colors : List ℤ)
    (tets : List (List ℕ)) : ∀ (s : BSState) {s' : BSState},
    runTets pts colors s tets = Except.ok s' →
    ∀ {k : List ℕ} {iv : ℕ × ℝ}, mapFind s.simplex_map k = some iv →
    mapFind s'.simplex_map k = some iv := by
  induction tets with
  | nil =>
      intro s s' hrun k iv h
      simp only [runTets, Except.ok.injEq] at hrun
      exact hrun ▸ h
  | cons t rest ih =>
      intro s s' hrun k iv h
      simp only [runTets] at hrun
      cases hp : process_tetrahedron pts colors s t with
      | error e => rw [hp] at hrun; simp at hrun
      | ok s1 =>
          rw [hp] at hrun
          exact ih s1 hrun (process_tetrahedron_map_mono pts colors s t hp h)

/-! ### The registry/barycenter invariant -/

theorem registryInv_congr (pts : List Point3D) {A B : BSState}
    (hm : A.simplex_map = B.simplex_map) (hn : A.next_simplex_id = B.next_simplex_id)
    (hb : A.barycenters = B.barycenters) (h : RegistryInv pts A) : RegistryInv pts B := by
  unfold RegistryInv at h ⊢
  rw [← hm, ← hn, ← hb]
  exact h

theorem get_or_create_bar_indep (pts : List Point3D) (c : Partition)
    (s₁ s₂ : BSState) (hm : s₁.simplex_map = s₂.simplex_map)
    (hn : s₁.next_simplex_id = s₂.next_simplex_id) :
    (get_or_create_simplex pts s₁ c).1 = (get_or_create_simplex pts s₂ c).1 ∧
    (get_or_create_simplex pts s₁ c).2.simplex_map =
      (get_or_create_simplex pts s₂ c).2.simplex_map ∧
    (get_or_create_simplex pts s₁ c).2.next_simplex_id =
      (get_or_create_simplex pts s₂ c).2.next_simplex_id := by
  rcases get_or_create_spec pts s₁ c with ⟨id, v, hf, hr⟩ | ⟨hf, hr⟩ <;>
    rcases get_or_create_spec pts s₂ c with ⟨id', v', hf', hr'⟩ | ⟨hf', hr'⟩ <;>
    rw [hr, hr']
  · rw [hm] at hf
    rw [hf'] at hf
    cases hf
    exact ⟨rfl, hm, hn⟩
  · rw [hm, hf'] at hf
    cases hf
  · rw [hm, hf'] at hf
    cases hf
  · exact ⟨by rw [hn], by rw [hm, hn], by rw [hn]⟩

theorem registerAll_bar_indep (pts : List Point3D) :
    ∀ (cs : List Partition) (s₁ s₂ : BSState),
    s₁.simplex_map = s₂.simplex_map → s₁.next_simplex_id = s₂.next_simplex_id →
    (registerAll pts s₁ cs).1 = (registerAll pts s₂ cs).1 ∧
    (registerAll pts s₁ cs).2.simplex_map = (registerAll pts s₂ cs).2.simplex_map ∧
    (registerAll pts s₁ cs).2.next_simplex_id =
      (registerAll pts s₂ cs).2.next_simplex_id := by
  intro cs
  induction cs with
  | nil => intro s₁ s₂ hm hn; exact ⟨rfl, hm, hn⟩
  | cons c rest ih =>
      intro s₁ s₂ hm hn
      obtain ⟨h1, h2, h3⟩ := get_or_create_bar_indep pts c s₁ s₂ hm hn
      obtain ⟨g1, g2, g3⟩ := ih (get_or_create_simplex pts s₁ c).2
        (get_or_create_simplex pts s₂ c).2 h2 h3
      refine ⟨?_, g2, g3⟩
      simp only [registerAll]
      rw [h1, g1]

theorem mapFind_singleton (k : List ℕ) (iv : ℕ × ℝ) :
    mapFind [(k, iv)] k = some iv := by simp [mapFind]

theorem registryInv_create (pts : List Point3D) {s : BSState} (c : Partition)
    (hInv : RegistryInv pts s)
    (hnone : mapFind s.simplex_map (sortList c.flatten) = none) :
    RegistryInv pts
      { s with
          simplex_map := s.simplex_map ++
            [(sortList c.flatten, s.next_simplex_id, compute_filtration_value pts c)],
          next_simplex_id := s.next_simplex_id + 1,
          barycenters := s.barycenters ++ [compute_barycenter pts c.flatten] } := by
  obtain ⟨hlen, hmem, hsurj, hinj⟩ := hInv
  refine ⟨?_, ?_, ?_, ?_⟩
  · simp [hlen]
  · intro k id v hk
    rw [mapFind_append] at hk
    cases hold : mapFind s.simplex_map k with
    | some iv =>
        rw [hold] at hk
        simp only at hk
        cases hk
        obtain ⟨hlt, hbc⟩ := hmem k id v hold
        refine ⟨Nat.lt_succ_of_lt hlt, ?_⟩
        rw [List.getD_append _ _ _ _ (by omega)]
        exact hbc
    | none =>
        rw [hold] at hk
        simp only [mapFind] at hk
        by_cases hkk : sortList c.flatten = k
        · rw [if_pos hkk] at hk
          cases hk
          subst hkk
          refine ⟨Nat.lt_succ_self _, ?_⟩
          rw [List.getD_eq_getElem?_getD, List.getElem?_append_right (le_of_eq hlen), hlen]
          simp only [Nat.sub_self, List.getElem?_cons_zero, Option.getD_some]
          exact compute_barycenter_perm pts (sortList_perm c.flatten).symm
        · rw [if_neg hkk] at hk
          cases hk
  · intro id hid
    rcases Nat.lt_succ_iff_lt_or_eq.1 hid with hlt | rfl
    · obtain ⟨k, v, hk⟩ := hsurj id hlt
      exact ⟨k, v, mapFind_append_of_some _ hk⟩
    · refine ⟨sortList c.flatten, compute_filtration_value pts c, ?_⟩
      rw [mapFind_append_of_none _ hnone]
      exact mapFind_singleton _ _
  · intro k k' id v v' hk hk'
    rw [mapFind_append] at hk hk'
    cases hold : mapFind s.simplex_map k with
    | some iv =>
        rw [hold] at hk
        simp only at hk
        cases hk
        cases hold' : mapFind s.simplex_map k' with
        | some iv' =>
            rw [hold'] at hk'
            simp only at hk'
            cases hk'
            exact hinj k k' id v v' hold hold'
        | none =>
            rw [hold'] at hk'
            simp only [mapFind] at hk'
            by_cases hkk : sortList c.flatten = k'
            · rw [if_pos hkk] at hk'
              cases hk'
              exact absurd (hmem k _ v hold).1 (lt_irrefl _)
            · rw [if_neg hkk] at hk'
              cases hk'
    | none =>
        rw [hold] at hk
        simp only [mapFind] at hk
        by_cases hkk : sortList c.flatten = k
        · rw [if_pos hkk] at hk
          cases hk
          cases hold' : mapFind s.simplex_map k' with
          | some iv' =>
              rw [hold'] at hk'
              simp only at hk'
              cases hk'
              exact absurd (hmem k' _ v' hold').1 (lt_irrefl _)
          | none =>
              rw [hold'] at hk'
              simp only [mapFind] at hk'
              by_cases hkk' : sortList c.flatten = k'
              · exact hkk ▸ hkk'
              · rw [if_neg hkk'] at hk'
                cases hk'
        · rw [if_neg hkk] at hk
          cases hk

theorem registerAll_inv (pts : List Point3D) :
    ∀ (cs : List Partition) (s : BSState), RegistryInv pts s →
    RegistryInv pts
      { (registerAll pts s cs).2 with
          barycenters := s.barycenters ++
            (((registerAll pts s cs).1.zip
                (cs.map fun c => compute_barycenter pts c.flatten)).filterMap
              fun ib => if ib.1.2.2 then some ib.2 else none) } := by
  intro cs
  induction cs with
  | nil =>
      intro s h
      simpa [registerAll] using h
  | cons c rest ih =>
      intro s h
      rcases get_or_create_spec pts s c with ⟨id, v, hf, hr⟩ | ⟨hf, hr⟩
      · simp only [registerAll, hr, List.map_cons, List.zip_cons_cons,
          List.filterMap_cons]
        simpa using ih s h
      · have hInv2 := registryInv_create pts c h hf
        have hIH := ih _ hInv2
        obtain ⟨g1, g2, g3⟩ := registerAll_bar_indep pts rest
          { s with
              simplex_map := s.simplex_map ++
                [(sortList c.flatten, s.next_simplex_id, compute_filtration_value pts c)],
              next_simplex_id := s.next_simplex_id + 1,
              barycenters := s.barycenters ++ [compute_barycenter pts c.flatten] }
          { s with
              simplex_map := s.simplex_map ++
                [(sortList c.flatten, s.next_simplex_id, compute_filtration_value pts c)],
              next_simplex_id := s.next_simplex_id + 1 }
          rfl rfl
        simp only [registerAll, hr]
        refine registryInv_congr pts ?_ ?_ ?_ hIH
        · exact g2
        · exact g3
        · show (s.barycenters ++ [compute_barycenter pts c.flatten]) ++ _ = _
          rw [g1]
          simp [List.append_assoc]

theorem extend_scaffold_barycenters (pts : List Point3D) (s : BSState)
    (cs : List Partition) (es : List (ℕ × ℕ)) (ts : List (ℕ × ℕ × ℕ)) :
    (extend_scaffold pts s cs es ts).barycenters =
      s.barycenters ++
        (((registerAll pts s cs).1.zip
            (cs.map fun c => compute_barycenter pts c.flatten)).filterMap
          fun ib => if ib.1.2.2 then some ib.2 else none) := by
  show (registerAll pts s cs).2.barycenters ++ _ = _
  rw [registerAll_barycenters]

theorem extend_scaffold_inv (pts : List Point3D) (s : BSState)
    (cs : List Partition) (es : List (ℕ × ℕ)) (ts : List (ℕ × ℕ × ℕ))
    (h : RegistryInv pts s) : RegistryInv pts (extend_scaffold pts s cs es ts) := by
  refine registryInv_congr pts ?_ ?_ ?_ (registerAll_inv pts cs s h)
  · rfl
  · rfl
  · rw [extend_scaffold_barycenters]

theorem registryInv_init (pts : List Point3D) : RegistryInv pts initState := by
  refine ⟨rfl, ?_, ?_, ?_⟩
  · intro k id v hk
    simp [initState, mapFind] at hk
  · intro id hid
    simp [initState] at hid
  · intro k k' id v v' hk hk'
    simp [initState, mapFind] at hk

theorem process_partition_inv (pts : List Point3D) (s : BSState)
    (parts : List (List ℕ)) {s' : BSState}
    (hrun : process_partition pts s parts = Except.ok s')
    (h : RegistryInv pts s) : RegistryInv pts s' := by
  rcases process_partition_shape pts s parts hrun with rfl | ⟨cs, es, ts, rfl⟩
  · exact h
  · exact extend_scaffold_inv pts s cs es ts h

theorem process_tetrahedron_inv (pts : List Point3D) (colors : List ℤ)
    (s : BSState) (tet : List ℕ) {s' : BSState}
    (hrun : process_tetrahedron pts colors s tet = Except.ok s')
    (h : RegistryInv pts s) : RegistryInv pts s' := by
  unfold process_tetrahedron at hrun
  cases hp : get_chromatic_partitioning tet colors with
  | error e => rw [hp] at hrun; simp at hrun
  | ok parts =>
      rw [hp] at hrun
      exact process_partition_inv pts s parts hrun h

theorem runTets_inv (pts : List Point3D) (colors : List ℤ)
    (tets : List (List ℕ)) : ∀ (s : BSState) {s' : BSState},
    runTets pts colors s tets = Except.ok s' →
    RegistryInv pts s → RegistryInv pts s' := by
  induction tets with
  | nil =>
      intro s s' hrun h
      simp only [runTets, Except.ok.injEq] at hrun
      exact hrun ▸ h
  | cons t rest ih =>
      intro s s' hrun h
      simp only [runTets] at hrun
      cases hp : process_tetrahedron pts colors s t with
      | error e => rw [hp] at hrun; simp at hrun
      | ok s1 =>
          rw [hp] at hrun
          exact ih s1 hrun (process_tetrahedron_inv pts colors s t hp h)

theorem get_filtration_nodup {s : BSState} (h : s.filtration_set.Nodup) :
    (get_filtration s).Nodup := ((sortEntries_perm s.filtration_set).nodup_iff).2 h

/-! ### Identity of combinations with the same vertex set -/

theorem key_eq_of_same_elements {c1 c2 : Partition} (h1 : c1.flatten.Nodup)
    (h2 : c2.flatten.Nodup) (hmem : ∀ a, a ∈ c1.flatten ↔ a ∈ c2.flatten) :
    sortList c1.flatten = sortList c2.flatten :=
  sortList_eq_of_perm ((List.perm_ext_iff_of_nodup h1 h2).2 hmem)

theorem get_or_create_pair (pts : List Point3D) (s : BSState) (c1 c2 : Partition)
    (hkey : sortList c1.flatten = sortList c2.flatten) :
    (get_or_create_simplex pts (get_or_create_simplex pts s c1).2 c2).1.1 =
      (get_or_create_simplex pts s c1).1.1 ∧
    (get_or_create_simplex pts (get_or_create_simplex pts s c1).2 c2).1.2.1 =
      (get_or_create_simplex pts s c1).1.2.1 := by
  rcases get_or_create_spec pts s c1 with ⟨id, v, hf, hr⟩ | ⟨hf, hr⟩
  · rw [hr]
    have hf2 : mapFind s.simplex_map (sortList c2.flatten) = some (id, v) := by
      rw [← hkey]; exact hf
    simp [get_or_create_simplex, hf2]
  · rw [hr]
    have hf2 : mapFind
        (s.simplex_map ++
          [(sortList c1.flatten, s.next_simplex_id, compute_filtration_value pts c1)])
        (sortList c2.flatten) =
        some (s.next_simplex_id, compute_filtration_value pts c1) := by
      rw [← hkey, mapFind_append_of_none _ hf]
      exact mapFind_singleton _ _
    simp [get_or_create_simplex, hf2]

/-! ### The filtration set produced by one scaffold call -/

theorem extend_scaffold_filtration (pts : List Point3D) (s : BSState)
    (cs : List Partition) (es : List (ℕ × ℕ)) (ts : List (ℕ × ℕ × ℕ)) :
    (extend_scaffold pts s cs es ts).filtration_set =
      fsInsertAll
        (fsInsertAll
          (fsInsertAll s.filtration_set
            (es.map fun e =>
              (sortList [((registerAll pts s cs).1.getD e.1 (0, 0, false)).1,
                         ((registerAll pts s cs).1.getD e.2 (0, 0, false)).1],
               min ((registerAll pts s cs).1.getD e.1 (0, 0, false)).2.1
                   ((registerAll pts s cs).1.getD e.2 (0, 0, false)).2.1)))
          (ts.map fun t =>
            (sortList [((registerAll pts s cs).1.getD t.1 (0, 0, false)).1,
                       ((registerAll pts s cs).1.getD t.2.1 (0, 0, false)).1,
                       ((registerAll pts s cs).1.getD t.2.2 (0, 0, false)).1],
             min ((registerAll pts s cs).1.getD t.1 (0, 0, false)).2.1
                 (min ((registerAll pts s cs).1.getD t.2.1 (0, 0, false)).2.1
                      ((registerAll pts s cs).1.getD t.2.2 (0, 0, false)).2.1))))
        ((registerAll pts s cs).1.map fun iv => ([iv.1], iv.2.1)) := by
  show fsInsertAll (fsInsertAll (fsInsertAll (registerAll pts s cs).2.filtration_set _) _) _ = _
  rw [registerAll_filtration]

theorem fsInsertAll3_eq (fs E T V : List Entry)
    (h : ((fs ++ E ++ T ++ V).map Prod.fst).Nodup) :
    fsInsertAll (fsInsertAll (fsInsertAll fs E) T) V = fs ++ E ++ T ++ V := by
  have h2 : (((fs ++ E) ++ T).map Prod.fst).Nodup :=
    List.Nodup.sublist ((List.sublist_append_left _ _).map _) h
  have h1 : ((fs ++ E).map Prod.fst).Nodup :=
    List.Nodup.sublist ((List.sublist_append_left _ _).map _) h2
  rw [fsInsertAll_eq_append fs E h1, fsInsertAll_eq_append _ T h2,
    fsInsertAll_eq_append _ V h]

/-! ### Counting entries by simplex size -/

theorem filter_length_eq_self {l : List Entry} {k : ℕ}
    (h : ∀ e ∈ l, e.1.length = k) : l.filter (fun e => e.1.length = k) = l :=
  List.filter_eq_self.2 fun e he => by simp [h e he]

theorem filter_length_eq_nil {l : List Entry} {k j : ℕ} (hkj : j ≠ k)
    (h : ∀ e ∈ l, e.1.length = k) : l.filter (fun e => e.1.length = j) = [] :=
  List.filter_eq_nil_iff.2 fun e he => by simp [h e he, (Ne.symm hkj)]

theorem edge_entries_length (vs : List (ℕ × ℝ × Bool)) (es : List (ℕ × ℕ)) :
    ∀ e ∈ es.map fun e =>
      ((sortList [(vs.getD e.1 (0, 0, false)).1, (vs.getD e.2 (0, 0, false)).1] : List ℕ),
       min (vs.getD e.1 (0, 0, false)).2.1 (vs.getD e.2 (0, 0, false)).2.1),
    e.1.length = 2 := by
  intro e he
  obtain ⟨p, _, rfl⟩ := List.mem_map.1 he
  rw [sortList_length]
  rfl

theorem tri_entries_length (vs : List (ℕ × ℝ × Bool)) (ts : List (ℕ × ℕ × ℕ)) :
    ∀ e ∈ ts.map fun t =>
      ((sortList [(vs.getD t.1 (0, 0, false)).1, (vs.getD t.2.1 (0, 0, false)).1,
                  (vs.getD t.2.2 (0, 0, false)).1] : List ℕ),
       min (vs.getD t.1 (0, 0, false)).2.1
         (min (vs.getD t.2.1 (0, 0, false)).2.1 (vs.getD t.2.2 (0, 0, false)).2.1)),
    e.1.length = 3 := by
  intro e he
  obtain ⟨p, _, rfl⟩ := List.mem_map.1 he
  rw [sortList_length]
  rfl

theorem vert_entries_length (vs : List (ℕ × ℝ × Bool)) :
    ∀ e ∈ vs.map fun iv => (([iv.1] : List ℕ), iv.2.1), e.1.length = 1 := by
  intro e he
  obtain ⟨p, _, rfl⟩ := List.mem_map.1 he
  rfl

theorem registerAll_length (pts : List Point3D) :
    ∀ (cs : List Partition) (s : BSState), (registerAll pts s cs).1.length = cs.length := by
  intro cs
  induction cs with
  | nil => intro s; rfl
  | cons c rest ih =>
      intro s
      simp only [registerAll, List.length_cons, ih]

theorem edges_filter_one (vs : List (ℕ × ℝ × Bool)) (es : List (ℕ × ℕ)) :
    ((es.map fun e =>
      ((sortList [(vs.getD e.1 (0, 0, false)).1, (vs.getD e.2 (0, 0, false)).1] : List ℕ),
       min (vs.getD e.1 (0, 0, false)).2.1 (vs.getD e.2 (0, 0, false)).2.1)).filter
        fun e => e.1.length = 1) = [] :=
  filter_length_eq_nil (by decide) (edge_entries_length vs es)

theorem edges_filter_two (vs : List (ℕ × ℝ × Bool)) (es : List (ℕ × ℕ)) :
    ((es.map fun e =>
      ((sortList [(vs.getD e.1 (0, 0, false)).1, (vs.getD e.2 (0, 0, false)).1] : List ℕ),
       min (vs.getD e.1 (0, 0, false)).2.1 (vs.getD e.2 (0, 0, false)).2.1)).filter
        fun e => e.1.length = 2) =
      es.map fun e =>
      ((sortList [(vs.getD e.1 (0, 0, false)).1, (vs.getD e.2 (0, 0, false)).1] : List ℕ),
       min (vs.getD e.1 (0, 0, false)).2.1 (vs.getD e.2 (0, 0, false)).2.1) :=
  filter_length_eq_self (edge_entries_length vs es)

theorem edges_filter_three (vs : List (ℕ × ℝ × Bool)) (es : List (ℕ × ℕ)) :
    ((es.map fun e =>
      ((sortList [(vs.getD e.1 (0, 0, false)).1, (vs.getD e.2 (0, 0, false)).1] : List ℕ),
       min (vs.getD e.1 (0, 0, false)).2.1 (vs.getD e.2 (0, 0, false)).2.1)).filter
        fun e => e.1.length = 3) = [] :=
  filter_length_eq_nil (by decide) (edge_entries_length vs es)

theorem tris_filter_one (vs : List (ℕ × ℝ × Bool)) (ts : List (ℕ × ℕ × ℕ)) :
    ((ts.map fun t =>
      ((sortList [(vs.getD t.1 (0, 0, false)).1, (vs.getD t.2.1 (0, 0, false)).1,
                  (vs.getD t.2.2 (0, 0, false)).1] : List ℕ),
       min (vs.getD t.1 (0, 0, false)).2.1
         (min (vs.getD t.2.1 (0, 0, false)).2.1 (vs.getD t.2.2 (0, 0, false)).2.1))).filter
        fun e => e.1.length = 1) = [] :=
  filter_length_eq_nil (by decide) (tri_entries_length vs ts)

theorem tris_filter_two (vs : List (ℕ × ℝ × Bool)) (ts : List (ℕ × ℕ × ℕ)) :
    ((ts.map fun t =>
      ((sortList [(vs.getD t.1 (0, 0, false)).1, (vs.getD t.2.1 (0, 0, false)).1,
                  (vs.getD t.2.2 (0, 0, false)).1] : List ℕ),
       min (vs.getD t.1 (0, 0, false)).2.1
         (min (vs.getD t.2.1 (0, 0, false)).2.1 (vs.getD t.2.2 (0, 0, false)).2.1))).filter
        fun e => e.1.length = 2) = [] :=
  filter_length_eq_nil (by decide) (tri_entries_length vs ts)

theorem tris_filter_three (vs : List (ℕ × ℝ × Bool)) (ts : List (ℕ × ℕ × ℕ)) :
    ((ts.map fun t =>
      ((sortList [(vs.getD t.1 (0, 0, false)).1, (vs.getD t.2.1 (0, 0, false)).1,
                  (vs.getD t.2.2 (0, 0, false)).1] : List ℕ),
       min (vs.getD t.1 (0, 0, false)).2.1
         (min (vs.getD t.2.1 (0, 0, false)).2.1 (vs.getD t.2.2 (0, 0, false)).2.1))).filter
        fun e => e.1.length = 3) =
      ts.map fun t =>
      ((sortList [(vs.getD t.1 (0, 0, false)).1, (vs.getD t.2.1 (0, 0, false)).1,
                  (vs.getD t.2.2 (0, 0, false)).1] : List ℕ),
       min (vs.getD t.1 (0, 0, false)).2.1
         (min (vs.getD t.2.1 (0, 0, false)).2.1 (vs.getD t.2.2 (0, 0, false)).2.1)) :=
  filter_length_eq_self (tri_entries_length vs ts)

theorem verts_filter_one (vs : List (ℕ × ℝ × Bool)) :
    ((vs.map fun iv => (([iv.1] : List ℕ), iv.2.1)).filter fun e => e.1.length = 1) =
      vs.map fun iv => (([iv.1] : List ℕ), iv.2.1) :=
  filter_length_eq_self (vert_entries_length vs)

theorem verts_filter_two (vs : List (ℕ × ℝ × Bool)) :
    ((vs.map fun iv => (([iv.1] : List ℕ), iv.2.1)).filter fun e => e.1.length = 2) = [] :=
  filter_length_eq_nil (by decide) (vert_entries_length vs)

theorem verts_filter_three (vs : List (ℕ × ℝ × Bool)) :
    ((vs.map fun iv => (([iv.1] : List ℕ), iv.2.1)).filter fun e => e.1.length = 3) = [] :=
  filter_length_eq_nil (by decide) (vert_entries_length vs)

theorem insertBlock_perm (b : List ℕ) (l : List (List ℕ)) :
    (insertBlock b l).Perm (b :: l) := by
  induction l with
  | nil => simp [insertBlock]
  | cons c t ih =>
      by_cases h : c.length < b.length ∨ (b.length = c.length ∧ blockMin b ≤ blockMin c)
      · simp [insertBlock, h]
      · simp only [insertBlock, if_neg h]
        exact ((ih).cons c).trans (List.Perm.swap b c t)

theorem sortBlocks_perm (l : List (List ℕ)) : (sortBlocks l).Perm l := by
  induction l with
  | nil => simp [sortBlocks]
  | cons b t ih =>
      simp only [sortBlocks, List.foldr_cons]
      exact (insertBlock_perm b _).trans (ih.cons b)

theorem partition_flatten_nodup {tet : List ℕ} {colors : List ℤ}
    {parts : List (List ℕ)} (hnd : tet.Nodup)
    (hpart : get_chromatic_partitioning tet colors = Except.ok parts) :
    parts.flatten.Nodup := by
  unfold get_chromatic_partitioning at hpart
  simp only at hpart
  split_ifs at hpart with hlen
  cases Except.ok.inj hpart
  refine ((sortBlocks_perm _).flatten).nodup_iff.2 (List.nodup_flatten.2 ⟨?_, ?_⟩)
  · intro l hl
    obtain ⟨c, _, rfl⟩ := List.mem_map.1 hl
    exact hnd.filter _
  · rw [List.pairwise_map]
    refine List.Pairwise.imp_of_mem ?_ (List.nodup_dedup _)
    intro c c' _ _ hcc
    intro a ha ha'
    obtain ⟨-, hc⟩ := List.mem_filter.1 ha
    obtain ⟨-, hc'⟩ := List.mem_filter.1 ha'
    refine hcc ?_
    have h1 := of_decide_eq_true hc
    have h2 := of_decide_eq_true hc'
    rw [← h1, ← h2]

theorem nodup_keys_of_map (f : ℕ → ℕ) (cs : List Partition)
    (h : (cs.map fun c => sortList (c.flatten.map f)).Nodup) :
    (cs.map fun c => sortList c.flatten).Nodup := by
  have heq : (cs.map fun c => sortList (c.flatten.map f)) =
      (cs.map fun c => sortList c.flatten).map fun k => sortList (k.map f) := by
    rw [List.map_map]
    refine List.map_congr_left ?_
    intro c _
    exact (sortList_eq_of_perm ((sortList_perm c.flatten).map f)).symm
  rw [heq] at h
  exact h.of_map _

theorem enumInfos_length (pts : List Point3D) :
    ∀ (cs : List Partition) (n : ℕ), (enumInfos pts n cs).length = cs.length := by
  intro cs
  induction cs with
  | nil => intro n; rfl
  | cons c rest ih => intro n; simp only [enumInfos, List.length_cons, ih]

theorem registerAll_all_new (pts : List Point3D) :
    ∀ (cs : List Partition) (s : BSState),
    (∀ c ∈ cs, mapFind s.simplex_map (sortList c.flatten) = none) →
    ((cs.map fun c => sortList c.flatten).Nodup) →
    (registerAll pts s cs).1 = enumInfos pts s.next_simplex_id cs := by
  intro cs
  induction cs with
  | nil => intro s _ _; rfl
  | cons c rest ih =>
      intro s hnone hnd
      have hf : mapFind s.simplex_map (sortList c.flatten) = none :=
        hnone c (List.mem_cons_self c rest)
      rcases get_or_create_spec pts s c with ⟨id, v, hf', hr⟩ | ⟨_, hr⟩
      · rw [hf] at hf'
        cases hf'
      · simp only [registerAll, hr, enumInfos]
        refine congrArg _ ?_
        rw [ih]
        · intro c' hc'
          rw [mapFind_append_of_none _ (hnone c' (List.mem_cons_of_mem c hc'))]
          have hne : sortList c.flatten ≠ sortList c'.flatten := by
            rw [List.map_cons, List.nodup_cons] at hnd
            intro he
            exact hnd.1 (he ▸ List.mem_map_of_mem _ hc')
          simp [mapFind, hne]
        · rw [List.map_cons, List.nodup_cons] at hnd
          exact hnd.2

set_option maxHeartbeats 1000000 in
theorem counts_2_2 (pts : List Point3D) (u v x y : ℕ)
    (huv : u ≠ v) (hux : u ≠ x) (huy : u ≠ y)
    (hvx : v ≠ x) (hvy : v ≠ y) (hxy : x ≠ y) :
    sizeCounts (extend_scaffold_2_2 pts initState [u, v] [x, y]) = (9, 16, 8) := by
  have hp : ∀ p : Entry → Bool,
      ((get_filtration (extend_scaffold_2_2 pts initState [u, v] [x, y])).filter p).length =
        ((extend_scaffold_2_2 pts initState [u, v] [x, y]).filtration_set.filter p).length :=
    fun p => (List.Perm.filter p (sortEntries_perm _)).length_eq
  unfold sizeCounts
  rw [hp, hp, hp]
  rw [show extend_scaffold_2_2 pts initState [u, v] [x, y] =
      extend_scaffold pts initState
        [[[u], [x]], [[v], [x]], [[v], [y]], [[u], [y]],
         [[u, v], [x]], [[v], [x, y]], [[u, v], [y]], [[u], [x, y]], [[u, v], [x, y]]]
        [(8, 0), (8, 1), (8, 2), (8, 3), (8, 4), (8, 5), (8, 6), (8, 7),
         (0, 4), (1, 4), (1, 5), (2, 5), (2, 6), (3, 6), (3, 7), (0, 7)]
        [(8, 0, 4), (8, 4, 1), (8, 1, 5), (8, 5, 2), (8, 2, 6), (8, 6, 3), (8, 3, 7), (8, 7, 0)]
      from rfl]
  rw [extend_scaffold_filtration]
  have hkeys : (([[[u], [x]], [[v], [x]], [[v], [y]], [[u], [y]],
         [[u, v], [x]], [[v], [x, y]], [[u, v], [y]], [[u], [x, y]], [[u, v], [x, y]]] : List Partition).map fun c => sortList c.flatten).Nodup := by
    refine nodup_keys_of_map
      (fun n => if n = u then 0 else if n = v then 1 else if n = x then 2 else 3) _ ?_
    simp [Ne.symm huv, Ne.symm hux, Ne.symm huy, Ne.symm hvx, Ne.symm hvy, Ne.symm hxy,
      sortList, insertSorted]
  have hreg : (registerAll pts initState
      [[[u], [x]], [[v], [x]], [[v], [y]], [[u], [y]],
         [[u, v], [x]], [[v], [x, y]], [[u, v], [y]], [[u], [x, y]], [[u, v], [x, y]]]).1 =
      enumInfos pts 0
      [[[u], [x]], [[v], [x]], [[v], [y]], [[u], [y]],
         [[u, v], [x]], [[v], [x, y]], [[u, v], [y]], [[u], [x, y]], [[u, v], [x, y]]] :=
    registerAll_all_new pts _ initState (fun c _ => rfl) hkeys
  simp only [hreg]
  rw [show initState.filtration_set = ([] : List Entry) from rfl]
  rw [fsInsertAll3_eq]
  · simp only [List.nil_append, List.filter_append, List.length_append,
      edges_filter_one, edges_filter_two, edges_filter_three,
      tris_filter_one, tris_filter_two, tris_filter_three,
      verts_filter_one, verts_filter_two, verts_filter_three,
      List.length_nil, List.length_map, enumInfos_length]
    rfl
  · change ([[0, 8], [1, 8], [2, 8], [3, 8], [4, 8], [5, 8], [6, 8], [7, 8],
      [0, 4], [1, 4], [1, 5], [2, 5], [2, 6], [3, 6], [3, 7], [0, 7],
      [0, 4, 8], [1, 4, 8], [1, 5, 8], [2, 5, 8], [2, 6, 8], [3, 6, 8], [3, 7, 8], [0, 7, 8],
      [0], [1], [2], [3], [4], [5], [6], [7], [8]] : List (List ℕ)).Nodup
    decide


set_option maxHeartbeats 1000000 in
theorem counts_3_1 (pts : List Point3D) (u v w x : ℕ)
    (huv : u ≠ v) (huw : u ≠ w) (hux : u ≠ x)
    (hvw : v ≠ w) (hvx : v ≠ x) (hwx : w ≠ x) :
    sizeCounts (extend_scaffold_3_1 pts initState [u, v, w] [x]) = (7, 12, 6) := by
  have hp : ∀ p : Entry → Bool,
      ((get_filtration (extend_scaffold_3_1 pts initState [u, v, w] [x])).filter p).length =
        ((extend_scaffold_3_1 pts initState [u, v, w] [x]).filtration_set.filter p).length :=
    fun p => (List.Perm.filter p (sortEntries_perm _)).length_eq
  unfold sizeCounts
  rw [hp, hp, hp]
  rw [show extend_scaffold_3_1 pts initState [u, v, w] [x] =
      extend_scaffold pts initState
        [[[u], [x]], [[v], [x]], [[w], [x]],
         [[u, v], [x]], [[v, w], [x]], [[u, w], [x]],
         [[u, v, w], [x]]]
        [(6, 0), (6, 1), (6, 2), (6, 3), (6, 4), (6, 5),
         (0, 3), (1, 3), (1, 4), (2, 4), (2, 5), (0, 5)]
        [(6, 0, 3), (6, 3, 1), (6, 1, 4), (6, 4, 2), (6, 2, 5), (6, 5, 0)]
      from rfl]
  rw [extend_scaffold_filtration]
  have hkeys : (([[[u], [x]], [[v], [x]], [[w], [x]],
         [[u, v], [x]], [[v, w], [x]], [[u, w], [x]],
         [[u, v, w], [x]]] : List Partition).map fun c => sortList c.flatten).Nodup := by
    refine nodup_keys_of_map
      (fun n => if n = u then 0 else if n = v then 1 else if n = w then 2 else 3) _ ?_
    simp [Ne.symm huv, Ne.symm huw, Ne.symm hux, Ne.symm hvw, Ne.symm hvx, Ne.symm hwx,
      sortList, insertSorted]
  have hreg : (registerAll pts initState
      [[[u], [x]], [[v], [x]], [[w], [x]],
         [[u, v], [x]], [[v, w], [x]], [[u, w], [x]],
         [[u, v, w], [x]]]).1 =
      enumInfos pts 0
      [[[u], [x]], [[v], [x]], [[w], [x]],
         [[u, v], [x]], [[v, w], [x]], [[u, w], [x]],
         [[u, v, w], [x]]] :=
    registerAll_all_new pts _ initState (fun c _ => rfl) hkeys
  simp only [hreg]
  rw [show initState.filtration_set = ([] : List Entry) from rfl]
  rw [fsInsertAll3_eq]
  · simp only [List.nil_append, List.filter_append, List.length_append,
      edges_filter_one, edges_filter_two, edges_filter_three,
      tris_filter_one, tris_filter_two, tris_filter_three,
      verts_filter_one, verts_filter_two, verts_filter_three,
      List.length_nil, List.length_map, enumInfos_length]
    rfl
  · change ([[0, 6], [1, 6], [2, 6], [3, 6], [4, 6], [5, 6],
      [0, 3], [1, 3], [1, 4], [2, 4], [2, 5], [0, 5],
      [0, 3, 6], [1, 3, 6], [1, 4, 6], [2, 4, 6], [2, 5, 6], [0, 5, 6],
      [0], [1], [2], [3], [4], [5], [6]] : List (List ℕ)).Nodup
    decide


set_option maxHeartbeats 1000000 in
theorem counts_2_1_1 (pts : List Point3D) (a b u x : ℕ)
    (hab : a ≠ b) (hau : a ≠ u) (hax : a ≠ x)
    (hbu : b ≠ u) (hbx : b ≠ x) (hux : u ≠ x) :
    sizeCounts (extend_scaffold_2_1_1 pts initState [a, b] [u] [x]) = (10, 15, 10) := by
  have hp : ∀ p : Entry → Bool,
      ((get_filtration (extend_scaffold_2_1_1 pts initState [a, b] [u] [x])).filter p).length =
        ((extend_scaffold_2_1_1 pts initState [a, b] [u] [x]).filtration_set.filter p).length :=
    fun p => (List.Perm.filter p (sortEntries_perm _)).length_eq
  unfold sizeCounts
  rw [hp, hp, hp]
  rw [show extend_scaffold_2_1_1 pts initState [a, b] [u] [x] =
      extend_scaffold pts initState
        [[[a], [u]], [[a], [x]], [[b], [x]], [[b], [u]],
         [[u], [x]],
         [[a], [u], [x]], [[a, b], [x]], [[b], [u], [x]], [[a, b], [u]],
         [[a, b], [u], [x]]]
        [(9, 0), (9, 1), (9, 2), (9, 3), (9, 4),
         (9, 5), (9, 6), (9, 7), (9, 8),
         (0, 5), (1, 5), (2, 6), (3, 8), (4, 5), (4, 7)]
        [(9, 0, 5), (9, 5, 4), (9, 4, 7), (9, 7, 3),
         (9, 3, 8), (9, 8, 0), (9, 2, 7), (9, 5, 1),
         (9, 1, 6), (9, 6, 2)]
      from rfl]
  rw [extend_scaffold_filtration]
  have hkeys : (([[[a], [u]], [[a], [x]], [[b], [x]], [[b], [u]],
         [[u], [x]],
         [[a], [u], [x]], [[a, b], [x]], [[b], [u], [x]], [[a, b], [u]],
         [[a, b], [u], [x]]] : List Partition).map fun c => sortList c.flatten).Nodup := by
    refine nodup_keys_of_map
      (fun n => if n = a then 0 else if n = b then 1 else if n = u then 2 else 3) _ ?_
    simp [Ne.symm hab, Ne.symm hau, Ne.symm hax, Ne.symm hbu, Ne.symm hbx, Ne.symm hux,
      sortList, insertSorted]
  have hreg : (registerAll pts initState
      [[[a], [u]], [[a], [x]], [[b], [x]], [[b], [u]],
         [[u], [x]],
         [[a], [u], [x]], [[a, b], [x]], [[b], [u], [x]], [[a, b], [u]],
         [[a, b], [u], [x]]]).1 =
      enumInfos pts 0
      [[[a], [u]], [[a], [x]], [[b], [x]], [[b], [u]],
         [[u], [x]],
         [[a], [u], [x]], [[a, b], [x]], [[b], [u], [x]], [[a, b], [u]],
         [[a, b], [u], [x]]] :=
    registerAll_all_new pts _ initState (fun c _ => rfl) hkeys
  simp only [hreg]
  rw [show initState.filtration_set = ([] : List Entry) from rfl]
  rw [fsInsertAll3_eq]
  · simp only [List.nil_append, List.filter_append, List.length_append,
      edges_filter_one, edges_filter_two, edges_filter_three,
      tris_filter_one, tris_filter_two, tris_filter_three,
      verts_filter_one, verts_filter_two, verts_filter_three,
      List.length_nil, List.length_map, enumInfos_length]
    rfl
  · change ([[0, 9], [1, 9], [2, 9], [3, 9], [4, 9], [5, 9], [6, 9], [7, 9], [8, 9],
      [0, 5], [1, 5], [2, 6], [3, 8], [4, 5], [4, 7],
      [0, 5, 9], [4, 5, 9], [4, 7, 9], [3, 7, 9], [3, 8, 9],
      [0, 8, 9], [2, 7, 9], [1, 5, 9], [1, 6, 9], [2, 6, 9],
      [0], [1], [2], [3], [4], [5], [6], [7], [8], [9]] : List (List ℕ)).Nodup
    decide


set_option maxHeartbeats 1000000 in
theorem counts_1_1_1_1 (pts : List Point3D) (a i u x : ℕ)
    (hai : a ≠ i) (hau : a ≠ u) (hax : a ≠ x)
    (hiu : i ≠ u) (hix : i ≠ x) (hux : u ≠ x) :
    sizeCounts (extend_scaffold_1_1_1_1 pts initState [a] [i] [u] [x]) = (11, 20, 12) := by
  have hp : ∀ p : Entry → Bool,
      ((get_filtration (extend_scaffold_1_1_1_1 pts initState [a] [i] [u] [x])).filter p).length =
        ((extend_scaffold_1_1_1_1 pts initState [a] [i] [u] [x]).filtration_set.filter p).length :=
    fun p => (List.Perm.filter p (sortEntries_perm _)).length_eq
  unfold sizeCounts
  rw [hp, hp, hp]
  rw [show extend_scaffold_1_1_1_1 pts initState [a] [i] [u] [x] =
      extend_scaffold pts initState
        [[[a], [i]], [[a], [u]], [[a], [x]],
         [[i], [u]], [[i], [x]], [[u], [x]],
         [[a], [i], [u]], [[a], [i], [x]], [[i], [u], [x]], [[a], [u], [x]],
         [[a], [i], [u], [x]]]
        [(10, 0), (10, 1), (10, 2), (10, 3), (10, 4), (10, 5),
         (10, 6), (10, 7), (10, 8), (10, 9),
         (0, 6), (1, 6), (3, 8), (4, 7), (5, 9), (0, 7), (1, 9), (3, 6), (4, 8), (5, 8)]
        [(10, 3, 8), (10, 8, 4), (10, 4, 7), (10, 7, 0),
         (10, 0, 6), (10, 6, 3), (10, 9, 1), (10, 5, 9),
         (10, 8, 5), (10, 1, 6), (10, 9, 2), (10, 2, 7)]
      from rfl]
  rw [extend_scaffold_filtration]
  have hkeys : (([[[a], [i]], [[a], [u]], [[a], [x]],
         [[i], [u]], [[i], [x]], [[u], [x]],
         [[a], [i], [u]], [[a], [i], [x]], [[i], [u], [x]], [[a], [u], [x]],
         [[a], [i], [u], [x]]] : List Partition).map fun c => sortList c.flatten).Nodup := by
    refine nodup_keys_of_map
      (fun n => if n = a then 0 else if n = i then 1 else if n = u then 2 else 3) _ ?_
    simp [Ne.symm hai, Ne.symm hau, Ne.symm hax, Ne.symm hiu, Ne.symm hix, Ne.symm hux,
      sortList, insertSorted]
  have hreg : (registerAll pts initState
      [[[a], [i]], [[a], [u]], [[a], [x]],
         [[i], [u]], [[i], [x]], [[u], [x]],
         [[a], [i], [u]], [[a], [i], [x]], [[i], [u], [x]], [[a], [u], [x]],
         [[a], [i], [u], [x]]]).1 =
      enumInfos pts 0
      [[[a], [i]], [[a], [u]], [[a], [x]],
         [[i], [u]], [[i], [x]], [[u], [x]],
         [[a], [i], [u]], [[a], [i], [x]], [[i], [u], [x]], [[a], [u], [x]],
         [[a], [i], [u], [x]]] :=
    registerAll_all_new pts _ initState (fun c _ => rfl) hkeys
  simp only [hreg]
  rw [show initState.filtration_set = ([] : List Entry) from rfl]
  rw [fsInsertAll3_eq]
  · simp only [List.nil_append, List.filter_append, List.length_append,
      edges_filter_one, edges_filter_two, edges_filter_three,
      tris_filter_one, tris_filter_two, tris_filter_three,
      verts_filter_one, verts_filter_two, verts_filter_three,
      List.length_nil, List.length_map, enumInfos_length]
    rfl
  · change ([[0, 10], [1, 10], [2, 10], [3, 10], [4, 10], [5, 10],
      [6, 10], [7, 10], [8, 10], [9, 10],
      [0, 6], [1, 6], [3, 8], [4, 7], [5, 9], [0, 7], [1, 9], [3, 6], [4, 8], [5, 8],
      [3, 8, 10], [4, 8, 10], [4, 7, 10], [0, 7, 10], [0, 6, 10], [3, 6, 10],
      [1, 9, 10], [5, 9, 10], [5, 8, 10], [1, 6, 10], [2, 9, 10], [2, 7, 10],
      [0], [1], [2], [3], [4], [5], [6], [7], [8], [9], [10]] : List (List ℕ)).Nodup
    decide



theorem extend_scaffold_mem (pts : List Point3D) (s : BSState)
    (cs : List Partition) (es : List (ℕ × ℕ)) (ts : List (ℕ × ℕ × ℕ)) (e : Entry) :
    e ∈ (extend_scaffold pts s cs es ts).filtration_set ↔
      e ∈ s.filtration_set ∨
      e ∈ (es.map fun p =>
        ((sortList [((registerAll pts s cs).1.getD p.1 (0, 0, false)).1,
                    ((registerAll pts s cs).1.getD p.2 (0, 0, false)).1] : List ℕ),
         min ((registerAll pts s cs).1.getD p.1 (0, 0, false)).2.1
             ((registerAll pts s cs).1.getD p.2 (0, 0, false)).2.1)) ∨
      e ∈ (ts.map fun t =>
        ((sortList [((registerAll pts s cs).1.getD t.1 (0, 0, false)).1,
                    ((registerAll pts s cs).1.getD t.2.1 (0, 0, false)).1,
                    ((registerAll pts s cs).1.getD t.2.2 (0, 0, false)).1] : List ℕ),
         min ((registerAll pts s cs).1.getD t.1 (0, 0, false)).2.1
           (min ((registerAll pts s cs).1.getD t.2.1 (0, 0, false)).2.1
                ((registerAll pts s cs).1.getD t.2.2 (0, 0, false)).2.1))) ∨
      e ∈ ((registerAll pts s cs).1.map fun iv => (([iv.1] : List ℕ), iv.2.1)) := by
  rw [extend_scaffold_filtration, mem_fsInsertAll, mem_fsInsertAll, mem_fsInsertAll]
  tauto


theorem dedup_const {α : Type} [DecidableEq α] :
    ∀ (l : List α) (c : α), l ≠ [] → (∀ x ∈ l, x = c) → l.dedup = [c] := by
  intro l
  induction l with
  | nil => intro c h _; exact absurd rfl h
  | cons a t ih =>
      intro c _ hall
      have ha : a = c := hall a (List.mem_cons_self a t)
      subst ha
      cases t with
      | nil => simp
      | cons b t2 =>
          have hb : b = a := (hall b (by simp)).trans rfl
          rw [List.dedup_cons_of_mem (by rw [hb]; exact List.mem_cons_self _ _)]
          exact ih a (by simp) fun x hx => hall x (List.mem_cons_of_mem a hx)

/-! ### The claims -/

/-- C2: `compute_filtration_value` applied to a combination of k blocks returns,
for k = 2, the Euclidean distance between the two block barycenters; for k = 3 the
mean of the 3 pairwise distances among the 3 block barycenters; for k = 4 the mean
of the 6 pairwise distances among the 4 block barycenters; and 0 for every other k
(in particular for a single block). -/
theorem filtration_value_formula (pts : List Point3D) (p : Partition) :
    (p.length = 2 →
      compute_filtration_value pts p =
        euclidean_distance (compute_barycenter pts (p.getD 0 []))
          (compute_barycenter pts (p.getD 1 []))) ∧
    (p.length = 3 →
      compute_filtration_value pts p =
        (euclidean_distance (compute_barycenter pts (p.getD 0 []))
            (compute_barycenter pts (p.getD 1 [])) +
         euclidean_distance (compute_barycenter pts (p.getD 0 []))
            (compute_barycenter pts (p.getD 2 [])) +
         euclidean_distance (compute_barycenter pts (p.getD 1 []))
            (compute_barycenter pts (p.getD 2 []))) / 3) ∧
    (p.length = 4 →
      compute_filtration_value pts p =
        (euclidean_distance (compute_barycenter pts (p.getD 0 []))
            (compute_barycenter pts (p.getD 1 [])) +
         euclidean_distance (compute_barycenter pts (p.getD 0 []))
            (compute_barycenter pts (p.getD 2 [])) +
         euclidean_distance (compute_barycenter pts (p.getD 0 []))
            (compute_barycenter pts (p.getD 3 [])) +
         euclidean_distance (compute_barycenter pts (p.getD 1 []))
            (compute_barycenter pts (p.getD 2 [])) +
         euclidean_distance (compute_barycenter pts (p.getD 1 []))
            (compute_barycenter pts (p.getD 3 [])) +
         euclidean_distance (compute_barycenter pts (p.getD 2 []))
            (compute_barycenter pts (p.getD 3 []))) / 6) ∧
    (p.length ≠ 2 → p.length ≠ 3 → p.length ≠ 4 → compute_filtration_value pts p = 0) := by
  refine ⟨fun h => ?_, fun h => ?_, fun h => ?_, fun h2 h3 h4 => ?_⟩
  · simp [compute_filtration_value, h]
  · simp [compute_filtration_value, h]
  · simp [compute_filtration_value, h]
  · simp [compute_filtration_value, h2, h3, h4]

/-- Witness for C2: a concrete two-block combination, evaluated through the
theorem. -/
theorem filtration_value_formula_witness :
    (([[0], [1]] : Partition).length = 2) ∧
    compute_filtration_value [(0, 0, 0), (1, 0, 0)] [[0], [1]] =
      euclidean_distance (compute_barycenter [(0, 0, 0), (1, 0, 0)] [0])
        (compute_barycenter [(0, 0, 0), (1, 0, 0)] [1]) :=
  ⟨rfl, (filtration_value_formula [(0, 0, 0), (1, 0, 0)] [[0], [1]]).1 rfl⟩

/-- C10: `compute_filtration_value` is invariant under permutation of the block
list: every branch averages all pairwise barycenter distances symmetrically, and
the distance is symmetric in its arguments. -/
theorem filtration_value_perm_invariant (pts : List Point3D) (p q : Partition)
    (h : p.Perm q) :
    compute_filtration_value pts p = compute_filtration_value pts q := by
  rw [compute_filtration_value_eq_pds, compute_filtration_value_eq_pds, h.length_eq,
    pairwiseDistSum_perm (h.map (compute_barycenter pts))]

/-- Witness for C10: the two orders of a concrete two-block combination. -/
theorem filtration_value_perm_invariant_witness :
    (([[0], [1]] : Partition).Perm [[1], [0]]) ∧
    compute_filtration_value [(0, 0, 0), (1, 0, 0)] [[0], [1]] =
      compute_filtration_value [(0, 0, 0), (1, 0, 0)] [[1], [0]] :=
  ⟨List.Perm.swap [1] [0] [],
   filtration_value_perm_invariant [(0, 0, 0), (1, 0, 0)] [[0], [1]] [[1], [0]]
     (List.Perm.swap [1] [0] [])⟩

/-- C4: for every state of the filtration set, `get_filtration` returns exactly the
stored entries (as a permutation, so deduplication is preserved) in an order that
is pairwise `entryLe`: simplex cardinality ascending as primary key and filtration
value ascending as secondary key; no tie-break beyond that is imposed. -/
theorem get_filtration_sorted (s : BSState) :
    (get_filtration s).Perm s.filtration_set ∧
    (get_filtration s).Pairwise entryLe :=
  ⟨sortEntries_perm _, sortEntries_pairwise _⟩

/-- C8: for every input sequence of tetrahedra processed from the initial state,
the returned filtration contains no duplicate (simplex, value) entries; in
particular two tetrahedra sharing a heterogeneous face contribute exactly one copy
of each shared sub-simplex. -/
theorem filtration_no_duplicates (pts : List Point3D) (colors : List ℤ)
    (tets : List (List ℕ)) {s' : BSState}
    (hrun : runTets pts colors initState tets = Except.ok s') :
    (get_filtration s').Nodup :=
  get_filtration_nodup
    (runTets_filtration_nodup pts colors tets initState hrun List.nodup_nil)

/-- Witness for C8: one concrete tetrahedron run. -/
theorem filtration_no_duplicates_witness :
    (runTets [] [0, 0, 1, 1] initState [[0, 1, 2, 3]] =
      Except.ok (extend_scaffold_2_2 [] initState [0, 1] [2, 3])) ∧
    (get_filtration (extend_scaffold_2_2 [] initState [0, 1] [2, 3])).Nodup :=
  ⟨rfl, filtration_no_duplicates [] [0, 0, 1, 1] [[0, 1, 2, 3]] rfl⟩


/-- C1: along any sequence of `process_tetrahedron` calls a registered (id, value)
pair is never recomputed or overwritten (first-writer-wins), and two back-to-back
`get_or_create_simplex` calls on combinations whose unions of point indices are
equal as sets return the same id and the same filtration value. -/
theorem registry_identity (pts : List Point3D) (colors : List ℤ) :
    (∀ (s : BSState) (k : List ℕ) (iv : ℕ × ℝ) (tets : List (List ℕ)) (s' : BSState),
      mapFind s.simplex_map k = some iv →
      runTets pts colors s tets = Except.ok s' →
      mapFind s'.simplex_map k = some iv) ∧
    (∀ (s : BSState) (c1 c2 : Partition),
      c1.flatten.Nodup → c2.flatten.Nodup →
      (∀ a, a ∈ c1.flatten ↔ a ∈ c2.flatten) →
      (get_or_create_simplex pts (get_or_create_simplex pts s c1).2 c2).1.1 =
        (get_or_create_simplex pts s c1).1.1 ∧
      (get_or_create_simplex pts (get_or_create_simplex pts s c1).2 c2).1.2.1 =
        (get_or_create_simplex pts s c1).1.2.1) := by
  constructor
  · intro s k iv tets s' hf hrun
    exact runTets_map_mono pts colors tets s hrun hf
  · intro s c1 c2 h1 h2 hm
    exact get_or_create_pair pts s c1 c2 (key_eq_of_same_elements h1 h2 hm)

/-- Witness for C1: a cached entry survives an (empty) run unchanged. -/
theorem registry_identity_witness :
    (mapFind (BSState.mk [([0, 1], 0, 0)] 1 [(0, 0, 0)] []).simplex_map [0, 1] =
      some (0, 0)) ∧
    (runTets [] [] (BSState.mk [([0, 1], 0, 0)] 1 [(0, 0, 0)] []) [] =
      Except.ok (BSState.mk [([0, 1], 0, 0)] 1 [(0, 0, 0)] [])) ∧
    mapFind (BSState.mk [([0, 1], 0, 0)] 1 [(0, 0, 0)] []).simplex_map [0, 1] =
      some (0, 0) :=
  ⟨rfl, rfl,
   (registry_identity [] []).1 (BSState.mk [([0, 1], 0, 0)] 1 [(0, 0, 0)] []) [0, 1]
     (0, 0) [] (BSState.mk [([0, 1], 0, 0)] 1 [(0, 0, 0)] []) rfl rfl⟩

/-- C5: the registry/barycenter correspondence (`RegistryInv`: the barycenter list
has length `next_simplex_id`, every registered id is below the counter and indexes
the mean of the original points of its identity key, ids below the counter are
exactly the registered ones with one key each) holds initially and is preserved by
every `process_tetrahedron` call. -/
theorem barycenter_registry_correspondence (pts : List Point3D) (colors : List ℤ) :
    RegistryInv pts initState ∧
    (∀ (s : BSState) (tet : List ℕ) (s' : BSState),
      RegistryInv pts s →
      process_tetrahedron pts colors s tet = Except.ok s' →
      RegistryInv pts s') :=
  ⟨registryInv_init pts,
   fun s tet _ hInv hrun => process_tetrahedron_inv pts colors s tet hrun hInv⟩

/-- Witness for C5: the invariant after processing one concrete 2-2 tetrahedron. -/
theorem barycenter_registry_correspondence_witness :
    RegistryInv [] initState ∧
    (process_tetrahedron [] [0, 0, 1, 1] initState [0, 1, 2, 3] =
      Except.ok (extend_scaffold_2_2 [] initState [0, 1] [2, 3])) ∧
    RegistryInv [] (extend_scaffold_2_2 [] initState [0, 1] [2, 3]) :=
  ⟨(barycenter_registry_correspondence [] [0, 0, 1, 1]).1, rfl,
   (barycenter_registry_correspondence [] [0, 0, 1, 1]).2 initState [0, 1, 2, 3] _
     (barycenter_registry_correspondence [] [0, 0, 1, 1]).1 rfl⟩

/-- C7: the dispatch of `process_tetrahedron`: a {2,2} partition goes to the 2-2
scaffold, {3,1} to the 3-1 scaffold, {1,3} to the 3-1 scaffold with the blocks
swapped, any 3-block partition to the 2-1-1 scaffold, a 4-block partition to the
1-1-1-1 scaffold, any other 2-block shape raises an error, and a monochromatic
tetrahedron makes `process_tetrahedron` signal the `InvalidInput` condition (from
the chromatic partitioner). -/
theorem dispatch_shapes (pts : List Point3D) (s : BSState) :
    (∀ parts : List (List ℕ), parts.length = 2 →
      (parts.getD 0 []).length = 2 → (parts.getD 1 []).length = 2 →
      process_partition pts s parts =
        Except.ok (extend_scaffold_2_2 pts s (parts.getD 0 []) (parts.getD 1 []))) ∧
    (∀ parts : List (List ℕ), parts.length = 2 →
      (parts.getD 0 []).length = 3 → (parts.getD 1 []).length = 1 →
      process_partition pts s parts =
        Except.ok (extend_scaffold_3_1 pts s (parts.getD 0 []) (parts.getD 1 []))) ∧
    (∀ parts : List (List ℕ), parts.length = 2 →
      (parts.getD 0 []).length = 1 → (parts.getD 1 []).length = 3 →
      process_partition pts s parts =
        Except.ok (extend_scaffold_3_1 pts s (parts.getD 1 []) (parts.getD 0 []))) ∧
    (∀ parts : List (List ℕ), parts.length = 2 →
      ¬((parts.getD 0 []).length = 2 ∧ (parts.getD 1 []).length = 2) →
      ¬((parts.getD 0 []).length = 3 ∧ (parts.getD 1 []).length = 1) →
      ¬((parts.getD 0 []).length = 1 ∧ (parts.getD 1 []).length = 3) →
      process_partition pts s parts = Except.error "Invalid 2-part partitioning") ∧
    (∀ parts : List (List ℕ), parts.length = 3 →
      process_partition pts s parts =
        Except.ok (extend_scaffold_2_1_1 pts s (parts.getD 0 []) (parts.getD 1 [])
          (parts.getD 2 []))) ∧
    (∀ parts : List (List ℕ), parts.length = 4 →
      process_partition pts s parts =
        Except.ok (extend_scaffold_1_1_1_1 pts s (parts.getD 0 []) (parts.getD 1 [])
          (parts.getD 2 []) (parts.getD 3 []))) ∧
    (∀ (colors : List ℤ) (tet : List ℕ) (c : ℤ), tet ≠ [] →
      (∀ ix ∈ tet, colors.getD ix 0 = c) →
      process_tetrahedron pts colors s tet =
        Except.error "InvalidInput: non-heterogeneous tetrahedron") := by
  refine ⟨?_, ?_, ?_, ?_, ?_, ?_, ?_⟩
  · intro parts h h0 h1
    unfold process_partition
    rw [if_pos h, if_pos ⟨h0, h1⟩]
  · intro parts h h0 h1
    unfold process_partition
    rw [if_pos h, if_neg (by intro hc; omega), if_pos ⟨h0, h1⟩]
  · intro parts h h0 h1
    unfold process_partition
    rw [if_pos h, if_neg (by intro hc; omega), if_neg (by intro hc; omega),
      if_pos ⟨h0, h1⟩]
  · intro parts h hn1 hn2 hn3
    unfold process_partition
    rw [if_pos h, if_neg hn1, if_neg hn2, if_neg hn3]
  · intro parts h
    unfold process_partition
    rw [if_neg (by omega), if_pos h]
  · intro parts h
    unfold process_partition
    rw [if_neg (by omega), if_neg (by omega), if_pos h]
  · intro colors tet c hne hall
    have hded : (tet.map fun ix => colors.getD ix 0).dedup = [c] :=
      dedup_const _ c (by simpa using hne)
        (by
          intro x hx
          obtain ⟨ix, hix, rfl⟩ := List.mem_map.1 hx
          exact hall ix hix)
    unfold process_tetrahedron get_chromatic_partitioning
    rw [hded]
    simp

/-- Witness for C7: the 2-2 dispatch on a concrete partition, and the error on a
concrete monochromatic tetrahedron. -/
theorem dispatch_shapes_witness :
    process_partition [] initState [[0, 1], [2, 3]] =
      Except.ok (extend_scaffold_2_2 [] initState [0, 1] [2, 3]) ∧
    process_tetrahedron [] [5, 5, 5, 5] initState [0, 1, 2, 3] =
      Except.error "InvalidInput: non-heterogeneous tetrahedron" :=
  ⟨(dispatch_shapes [] initState).1 [[0, 1], [2, 3]] rfl rfl rfl,
   (dispatch_shapes [] initState).2.2.2.2.2.2 [5, 5, 5, 5] [0, 1, 2, 3] 5 (by decide)
     (by decide)⟩

/-- C9: `get_barycentric_subdivision_and_filtration` fails with the length-mismatch
error whenever the point and color lists have different lengths, and, when
`weighted` is true, with the radii error whenever the radii list has a different
length from the points; in both cases the result is an error for every generator,
so no tetrahedron is processed and no partial result is produced. -/
theorem input_validation
    (gen : List Point3D → List ℤ → List ℝ → Bool → Bool → List (List ℕ))
    (points : List Point3D) (colors : List ℤ) (radii : List ℝ)
    (weighted alpha : Bool) :
    (points.length ≠ colors.length →
      get_barycentric_subdivision_and_filtration gen points colors radii weighted alpha =
        Except.error "Each point must have a corresponding color_label") ∧
    (points.length = colors.length → weighted = true → radii.length ≠ points.length →
      get_barycentric_subdivision_and_filtration gen points colors radii weighted alpha =
        Except.error "Each point must have an assigned radius for weighted complexes") := by
  constructor
  · intro h
    unfold get_barycentric_subdivision_and_filtration
    rw [if_pos h]
  · intro h hw hr
    unfold get_barycentric_subdivision_and_filtration
    rw [if_neg (by simp [h]), if_pos ⟨by simp [hw], hr⟩]

/-- Witness for C9: 3 points with 4 color labels. -/
theorem input_validation_witness :
    (([(0, 0, 0), (0, 0, 0), (0, 0, 0)] : List Point3D).length ≠
      ([0, 0, 1, 1] : List ℤ).length) ∧
    get_barycentric_subdivision_and_filtration (fun _ _ _ _ _ => [])
      [(0, 0, 0), (0, 0, 0), (0, 0, 0)] [0, 0, 1, 1] [] false false =
      Except.error "Each point must have a corresponding color_label" :=
  ⟨by decide,
   (input_validation (fun _ _ _ _ _ => []) [(0, 0, 0), (0, 0, 0), (0, 0, 0)]
     [0, 0, 1, 1] [] false false).1 (by decide)⟩


/-- C6: the 2-2 scaffold on blocks [u,v] and [x,y] registers the 9 combinations in
the order u|x, v|x, v|y, u|y, uv|x, v|xy, uv|y, u|xy, uv|xy, and its filtration
set gains exactly the edges joining the apex (index 8) to indices 0-7 plus the
8-cycle edges (0,4),(1,4),(1,5),(2,5),(2,6),(3,6),(3,7),(0,7), exactly the 8
triangles (8,0,4),(8,4,1),(8,1,5),(8,5,2),(8,2,6),(8,6,3),(8,3,7),(8,7,0) — each
carrying the minimum of its endpoint ids' cached values — and a size-1 entry for
each of the 9 registered ids with its own cached value. -/
theorem scaffold_2_2_structure (pts : List Point3D) (s : BSState) (u v x y : ℕ) :
    ∀ e : Entry,
    e ∈ (extend_scaffold_2_2 pts s [u, v] [x, y]).filtration_set ↔
      e ∈ s.filtration_set ∨
      e ∈ (([(8, 0), (8, 1), (8, 2), (8, 3), (8, 4), (8, 5), (8, 6), (8, 7),
             (0, 4), (1, 4), (1, 5), (2, 5), (2, 6), (3, 6), (3, 7), (0, 7)] :
              List (ℕ × ℕ)).map fun p =>
        ((sortList [((registerAll pts s
              [[[u], [x]], [[v], [x]], [[v], [y]], [[u], [y]],
               [[u, v], [x]], [[v], [x, y]], [[u, v], [y]], [[u], [x, y]],
               [[u, v], [x, y]]]).1.getD p.1 (0, 0, false)).1,
            ((registerAll pts s
              [[[u], [x]], [[v], [x]], [[v], [y]], [[u], [y]],
               [[u, v], [x]], [[v], [x, y]], [[u, v], [y]], [[u], [x, y]],
               [[u, v], [x, y]]]).1.getD p.2 (0, 0, false)).1] : List ℕ),
         min ((registerAll pts s
              [[[u], [x]], [[v], [x]], [[v], [y]], [[u], [y]],
               [[u, v], [x]], [[v], [x, y]], [[u, v], [y]], [[u], [x, y]],
               [[u, v], [x, y]]]).1.getD p.1 (0, 0, false)).2.1
             ((registerAll pts s
              [[[u], [x]], [[v], [x]], [[v], [y]], [[u], [y]],
               [[u, v], [x]], [[v], [x, y]], [[u, v], [y]], [[u], [x, y]],
               [[u, v], [x, y]]]).1.getD p.2 (0, 0, false)).2.1)) ∨
      e ∈ (([(8, 0, 4), (8, 4, 1), (8, 1, 5), (8, 5, 2),
             (8, 2, 6), (8, 6, 3), (8, 3, 7), (8, 7, 0)] :
              List (ℕ × ℕ × ℕ)).map fun t =>
        ((sortList [((registerAll pts s
              [[[u], [x]], [[v], [x]], [[v], [y]], [[u], [y]],
               [[u, v], [x]], [[v], [x, y]], [[u, v], [y]], [[u], [x, y]],
               [[u, v], [x, y]]]).1.getD t.1 (0, 0, false)).1,
            ((registerAll pts s
              [[[u], [x]], [[v], [x]], [[v], [y]], [[u], [y]],
               [[u, v], [x]], [[v], [x, y]], [[u, v], [y]], [[u], [x, y]],
               [[u, v], [x, y]]]).1.getD t.2.1 (0, 0, false)).1,
            ((registerAll pts s
              [[[u], [x]], [[v], [x]], [[v], [y]], [[u], [y]],
               [[u, v], [x]], [[v], [x, y]], [[u, v], [y]], [[u], [x, y]],
               [[u, v], [x, y]]]).1.getD t.2.2 (0, 0, false)).1] : List ℕ),
         min ((registerAll pts s
              [[[u], [x]], [[v], [x]], [[v], [y]], [[u], [y]],
               [[u, v], [x]], [[v], [x, y]], [[u, v], [y]], [[u], [x, y]],
               [[u, v], [x, y]]]).1.getD t.1 (0, 0, false)).2.1
           (min ((registerAll pts s
              [[[u], [x]], [[v], [x]], [[v], [y]], [[u], [y]],
               [[u, v], [x]], [[v], [x, y]], [[u, v], [y]], [[u], [x, y]],
               [[u, v], [x, y]]]).1.getD t.2.1 (0, 0, false)).2.1
                ((registerAll pts s
              [[[u], [x]], [[v], [x]], [[v], [y]], [[u], [y]],
               [[u, v], [x]], [[v], [x, y]], [[u, v], [y]], [[u], [x, y]],
               [[u, v], [x, y]]]).1.getD t.2.2 (0, 0, false)).2.1))) ∨
      e ∈ ((registerAll pts s
              [[[u], [x]], [[v], [x]], [[v], [y]], [[u], [y]],
               [[u, v], [x]], [[v], [x, y]], [[u, v], [y]], [[u], [x, y]],
               [[u, v], [x, y]]]).1.map fun iv => (([iv.1] : List ℕ), iv.2.1)) := by
  intro e
  exact extend_scaffold_mem pts s
    [[[u], [x]], [[v], [x]], [[v], [y]], [[u], [y]],
     [[u, v], [x]], [[v], [x, y]], [[u, v], [y]], [[u], [x, y]],
     [[u, v], [x, y]]]
    [(8, 0), (8, 1), (8, 2), (8, 3), (8, 4), (8, 5), (8, 6), (8, 7),
     (0, 4), (1, 4), (1, 5), (2, 5), (2, 6), (3, 6), (3, 7), (0, 7)]
    [(8, 0, 4), (8, 4, 1), (8, 1, 5), (8, 5, 2),
     (8, 2, 6), (8, 6, 3), (8, 3, 7), (8, 7, 0)] e

/-- C3: starting from the empty registry and filtration set, processing any single
tetrahedron (distinct vertex indices, arbitrary coordinates and coloring) yields,
depending on the shape of its chromatic partition, exactly 9/16/8 size-1/2/3
filtration entries for shape 2-2, 7/12/6 for 3-1, 10/15/10 for 2-1-1 and
11/20/12 for 1-1-1-1. -/
theorem single_tetrahedron_counts (pts : List Point3D) (colors : List ℤ) :
    ∀ (tet : List ℕ) (parts : List (List ℕ)), tet.Nodup →
    get_chromatic_partitioning tet colors = Except.ok parts →
    ((parts.map List.length = [2, 2] →
      (process_tetrahedron pts colors initState tet).map sizeCounts =
        Except.ok (9, 16, 8)) ∧
     (parts.map List.length = [3, 1] →
      (process_tetrahedron pts colors initState tet).map sizeCounts =
        Except.ok (7, 12, 6)) ∧
     (parts.map List.length = [2, 1, 1] →
      (process_tetrahedron pts colors initState tet).map sizeCounts =
        Except.ok (10, 15, 10)) ∧
     (parts.map List.length = [1, 1, 1, 1] →
      (process_tetrahedron pts colors initState tet).map sizeCounts =
        Except.ok (11, 20, 12))) := by
  intro tet parts hnd hpart
  have hflat := partition_flatten_nodup hnd hpart
  have hproc : process_tetrahedron pts colors initState tet =
      process_partition pts initState parts := by
    unfold process_tetrahedron
    rw [hpart]
  rcases parts with _ | ⟨b0, _ | ⟨b1, _ | ⟨b2, _ | ⟨b3, _ | ⟨b4, rest⟩⟩⟩⟩⟩
  · exact ⟨fun h => by simp at h, fun h => by simp at h, fun h => by simp at h,
      fun h => by simp at h⟩
  · exact ⟨fun h => by simp at h, fun h => by simp at h, fun h => by simp at h,
      fun h => by simp at h⟩
  · refine ⟨?_, ?_, fun h => by simp at h, fun h => by simp at h⟩
    · intro hshape
      simp only [List.map_cons, List.map_nil, List.cons.injEq, and_true] at hshape
      obtain ⟨h0, h1⟩ := hshape
      obtain ⟨u, v, rfl⟩ := List.length_eq_two.mp h0
      obtain ⟨x, y, rfl⟩ := List.length_eq_two.mp h1
      simp only [List.flatten_cons, List.flatten_nil, List.cons_append,
        List.nil_append, List.append_nil, List.nodup_cons, List.mem_cons,
        List.mem_singleton, List.not_mem_nil, or_false, not_or,
        List.nodup_nil, and_true] at hflat
      obtain ⟨⟨huv, hux, huy⟩, ⟨hvx, hvy⟩, hxy, -⟩ := hflat
      rw [hproc]
      rw [show process_partition pts initState [[u, v], [x, y]] =
          Except.ok (extend_scaffold_2_2 pts initState [u, v] [x, y]) from rfl]
      rw [show (Except.ok (extend_scaffold_2_2 pts initState [u, v] [x, y])).map
            sizeCounts =
          Except.ok (sizeCounts (extend_scaffold_2_2 pts initState [u, v] [x, y]))
          from rfl]
      rw [counts_2_2 pts u v x y huv hux huy hvx hvy hxy]
    · intro hshape
      simp only [List.map_cons, List.map_nil, List.cons.injEq, and_true] at hshape
      obtain ⟨h0, h1⟩ := hshape
      obtain ⟨u, v, w, rfl⟩ := List.length_eq_three.mp h0
      obtain ⟨x, rfl⟩ := List.length_eq_one.mp h1
      simp only [List.flatten_cons, List.flatten_nil, List.cons_append,
        List.nil_append, List.append_nil, List.nodup_cons, List.mem_cons,
        List.mem_singleton, List.not_mem_nil, or_false, not_or,
        List.nodup_nil, and_true] at hflat
      obtain ⟨⟨huv, huw, hux⟩, ⟨hvw, hvx⟩, hwx, -⟩ := hflat
      rw [hproc]
      rw [show process_partition pts initState [[u, v, w], [x]] =
          Except.ok (extend_scaffold_3_1 pts initState [u, v, w] [x]) from rfl]
      rw [show (Except.ok (extend_scaffold_3_1 pts initState [u, v, w] [x])).map
            sizeCounts =
          Except.ok (sizeCounts (extend_scaffold_3_1 pts initState [u, v, w] [x]))
          from rfl]
      rw [counts_3_1 pts u v w x huv huw hux hvw hvx hwx]
  · refine ⟨fun h => by simp at h, fun h => by simp at h, ?_, fun h => by simp at h⟩
    intro hshape
    simp only [List.map_cons, List.map_nil, List.cons.injEq, and_true] at hshape
    obtain ⟨h0, h1, h2⟩ := hshape
    obtain ⟨a, b, rfl⟩ := List.length_eq_two.mp h0
    obtain ⟨c, rfl⟩ := List.length_eq_one.mp h1
    obtain ⟨d, rfl⟩ := List.length_eq_one.mp h2
    simp only [List.flatten_cons, List.flatten_nil, List.cons_append,
      List.nil_append, List.append_nil, List.nodup_cons, List.mem_cons,
      List.mem_singleton, List.not_mem_nil, or_false, not_or,
      List.nodup_nil, and_true] at hflat
    obtain ⟨⟨hab, hac, had⟩, ⟨hbc, hbd⟩, hcd, -⟩ := hflat
    rw [hproc]
    rw [show process_partition pts initState [[a, b], [c], [d]] =
        Except.ok (extend_scaffold_2_1_1 pts initState [a, b] [c] [d]) from rfl]
    rw [show (Except.ok (extend_scaffold_2_1_1 pts initState [a, b] [c] [d])).map
          sizeCounts =
        Except.ok (sizeCounts (extend_scaffold_2_1_1 pts initState [a, b] [c] [d]))
        from rfl]
    rw [counts_2_1_1 pts a b c d hab hac had hbc hbd hcd]
  · refine ⟨fun h => by simp at h, fun h => by simp at h, fun h => by simp at h, ?_⟩
    intro hshape
    simp only [List.map_cons, List.map_nil, List.cons.injEq, and_true] at hshape
    obtain ⟨h0, h1, h2, h3⟩ := hshape
    obtain ⟨a, rfl⟩ := List.length_eq_one.mp h0
    obtain ⟨b, rfl⟩ := List.length_eq_one.mp h1
    obtain ⟨c, rfl⟩ := List.length_eq_one.mp h2
    obtain ⟨d, rfl⟩ := List.length_eq_one.mp h3
    simp only [List.flatten_cons, List.flatten_nil, List.cons_append,
      List.nil_append, List.append_nil, List.nodup_cons, List.mem_cons,
      List.mem_singleton, List.not_mem_nil, or_false, not_or,
      List.nodup_nil, and_true] at hflat
    obtain ⟨⟨hab, hac, had⟩, ⟨hbc, hbd⟩, hcd, -⟩ := hflat
    rw [hproc]
    rw [show process_partition pts initState [[a], [b], [c], [d]] =
        Except.ok (extend_scaffold_1_1_1_1 pts initState [a] [b] [c] [d]) from rfl]
    rw [show (Except.ok (extend_scaffold_1_1_1_1 pts initState [a] [b] [c] [d])).map
          sizeCounts =
        Except.ok (sizeCounts (extend_scaffold_1_1_1_1 pts initState [a] [b] [c] [d]))
        from rfl]
    rw [counts_1_1_1_1 pts a b c d hab hac had hbc hbd hcd]
  · exact ⟨fun h => by simp at h, fun h => by simp at h, fun h => by simp at h,
      fun h => by simp at h⟩

/-- Witness for C3: the tetrahedron [0,1,2,3] with coloring [0,0,1,1] (shape 2-2),
evaluated through the theorem. -/
theorem single_tetrahedron_counts_witness :
    (([0, 1, 2, 3] : List ℕ).Nodup) ∧
    (get_chromatic_partitioning [0, 1, 2, 3] [0, 0, 1, 1] =
      Except.ok [[0, 1], [2, 3]]) ∧
    (([[0, 1], [2, 3]] : List (List ℕ)).map List.length = [2, 2]) ∧
    (process_tetrahedron [] [0, 0, 1, 1] initState [0, 1, 2, 3]).map sizeCounts =
      Except.ok (9, 16, 8) :=
  ⟨by decide, rfl, rfl,
   (single_tetrahedron_counts [] [0, 0, 1, 1] [0, 1, 2, 3] [[0, 1], [2, 3]]
     (by decide) rfl).1 rfl⟩

end DelaunayInterfaces
